import Mathlib

/-!
Shallow embedding of the njs-modbus protocol engine (application-layer
framers RTU / ASCII / MBAP-TCP, the server dispatcher with its function-code
handlers, the error-code mapping, and the shared utilities), together with
theorems settling the frozen claims about the specification.

Byte buffers are modelled as `List Nat` whose entries stand for the bytes a
Node `Buffer` holds; JS numbers that are known non-negative integers are
modelled as `Nat`, numbers that may be negative as `Int`.  Fallible paths
return `Except`/`Option`.  Model callbacks (which in the source may resolve
or reject) are modelled as pure functions returning `Except` with the
rejection message as a `List Char`.
-/

namespace NjsModbus

/-- Decoded Application Data Unit as produced by the role layers:
optional MBAP transaction id, unit address, function code, PDU payload. -/
structure Adu where
  transaction : Option Nat := none
  unit : Nat
  fc : Nat
  data : List Nat
deriving Repr, DecidableEq

/-- A framed ADU: the decoded fields plus the raw buffer the framer decoded
(`ApplicationDataUnit & \x7b buffer: Buffer \x7d` in the source). -/
structure Frame extends Adu where
  buffer : List Nat
deriving Repr, DecidableEq

/-- Result of one pre-check predicate (`boolean | number | undefined`
in the source). -/
inductive CheckRes where
  | bool (b : Bool)
  | num (n : Nat)
  | undef
deriving Repr, DecidableEq

/-- The error values the framing paths can report (identified by their
message strings in the source). -/
inductive ModbusErr where
  | insufficientDataLength
  | invalidResponse
  | crcCheckFailed
  | lrcCheckFailed
  | invalidData
deriving Repr, DecidableEq

/-- `Buffer.readUInt16BE(i)`: big-endian 16-bit read at offset `i`. -/
def readUInt16BE (l : List Nat) (i : Nat) : Nat :=
  l.getD i 0 * 256 + l.getD (i + 1) 0

/-- `Buffer.readUInt16LE(i)`: little-endian 16-bit read at offset `i`. -/
def readUInt16LE (l : List Nat) (i : Nat) : Nat :=
  l.getD i 0 + l.getD (i + 1) 0 * 256

/-- src/src/utils/lrc.ts: `(~data.reduce((sum, n) => sum + n, 0) + 1) & 0xff`,
i.e. the two's-complement negation of the byte sum, truncated to 8 bits. -/
def lrc (data : List Nat) : Nat :=
  (256 - (data.foldl (· + ·) 0) % 256) % 256

/-- Modelled from the spec: the repository's `crc` utility is imported by the
RTU layer but its source file is not in the snapshot.  §4.6: CRC-16 with
polynomial 0xA001, initial value 0xFFFF, reflected. One shift round. -/
def crcRound (c : Nat) : Nat :=
  if c % 2 == 1 then (c / 2) ^^^ 0xA001 else c / 2

/-- Modelled from the spec: fold one byte into the CRC accumulator
(xor in the byte, then eight shift rounds). -/
def crcByte (c b : Nat) : Nat :=
  crcRound (crcRound (crcRound (crcRound (crcRound (crcRound (crcRound (crcRound (c ^^^ b))))))))

/-- Modelled from the spec: MODBUS CRC-16 over a byte sequence. -/
def crc (data : List Nat) : Nat :=
  data.foldl crcByte 0xFFFF

theorem crcRound_lt (c : Nat) (h : c < 65536) : crcRound c < 65536 := by
  unfold crcRound
  split
  · exact Nat.xor_lt_two_pow (n := 16) (by omega) (by norm_num)
  · omega

theorem crcByte_lt (c b : Nat) (hc : c < 65536) (hb : b < 256) : crcByte c b < 65536 := by
  unfold crcByte
  have h0 : c ^^^ b < 65536 := Nat.xor_lt_two_pow (n := 16) hc (by omega)
  exact crcRound_lt _ (crcRound_lt _ (crcRound_lt _ (crcRound_lt _ (crcRound_lt _
    (crcRound_lt _ (crcRound_lt _ (crcRound_lt _ h0)))))))

theorem foldl_crcByte_lt (data : List Nat) (acc : Nat) (ha : acc < 65536)
    (h : ∀ b ∈ data, b < 256) : data.foldl crcByte acc < 65536 := by
  induction data generalizing acc with
  | nil => simpa using ha
  | cons x xs ih =>
      simp only [List.foldl_cons]
      exact ih (crcByte acc x) (crcByte_lt acc x ha (h x (by simp)))
        (fun b hb => h b (by simp [hb]))

theorem crc_lt (data : List Nat) (h : ∀ b ∈ data, b < 256) : crc data < 65536 :=
  foldl_crcByte_lt data 0xFFFF (by norm_num) h

/-- The pre-check loop of the RTU and MBAP framers
(rtu-application-layer.ts lines 95-115, tcp-application-layer.ts lines
44-64): for a numeric result the source compares `res < frame.data.length`,
and on equality control falls through to the JS falsiness test `!res`. -/
def runPreChecksSwapped (checks : List (Frame → CheckRes)) (frame : Frame) :
    Option ModbusErr :=
  match checks with
  | [] => none
  | check :: rest =>
    match check frame with
    | .undef => some .insufficientDataLength
    | .num n =>
      if n < frame.data.length then some .insufficientDataLength
      else if n ≠ frame.data.length then some .invalidResponse
      else if n == 0 then some .invalidResponse
      else runPreChecksSwapped rest frame
    | .bool b => if b then runPreChecksSwapped rest frame else some .invalidResponse

/-- The pre-check loop of the ASCII framer (part_004 lines 108-128): the
numeric comparison is `frame.data.length < res`, the opposite direction of
the RTU/MBAP loop; on equality control falls through to `!res`. -/
def runPreChecksAscii (checks : List (Frame → CheckRes)) (frame : Frame) :
    Option ModbusErr :=
  match checks with
  | [] => none
  | check :: rest =>
    match check frame with
    | .undef => some .insufficientDataLength
    | .num n =>
      if frame.data.length < n then some .insufficientDataLength
      else if frame.data.length ≠ n then some .invalidResponse
      else if n == 0 then some .invalidResponse
      else runPreChecksAscii rest frame
    | .bool b => if b then runPreChecksAscii rest frame else some .invalidResponse

/-- Dispatch on the response-wait state: run the pre-check pipeline when a
wait is active (`this._waitingResponse`), otherwise no pre-check error. -/
def waitCheck (runner : List (Frame → CheckRes) → Frame → Option ModbusErr)
    (waiting : Option (List (Frame → CheckRes))) (f : Frame) : Option ModbusErr :=
  match waiting with
  | some checks => runner checks f
  | none => none

theorem waitCheck_none (r : List (Frame → CheckRes) → Frame → Option ModbusErr)
    (f : Frame) : waitCheck r none f = none := rfl

theorem waitCheck_some (r : List (Frame → CheckRes) → Frame → Option ModbusErr)
    (cs : List (Frame → CheckRes)) (f : Frame) : waitCheck r (some cs) f = r cs f := rfl

/-- The tentative frame the RTU framer builds from the receive buffer:
`unit = buffer[0]`, `fc = buffer[1]`, `data = buffer[2 .. len-2]`. -/
def rtuFrameOf (buffer : List Nat) : Frame :=
  { unit := buffer.getD 0 0
    fc := buffer.getD 1 0
    data := (buffer.take (buffer.length - 2)).drop 2
    buffer := buffer }

/-- `RtuApplicationLayer.framing` (lines 86-126): grammar check
(length ≥ 4), optional pre-check pipeline when a response-wait is active,
then the CRC-16 check (`readUInt16LE(len-2) === crc(buffer[0..len-2])`). -/
def rtuFraming (waiting : Option (List (Frame → CheckRes))) (buffer : List Nat) :
    Except ModbusErr Frame :=
  if buffer.length ≥ 4 then
    match waitCheck runPreChecksSwapped waiting (rtuFrameOf buffer) with
    | some e => .error e
    | none =>
      if readUInt16LE buffer (buffer.length - 2) == crc (buffer.take (buffer.length - 2))
      then .ok (rtuFrameOf buffer)
      else .error .crcCheckFailed
  else .error .insufficientDataLength

/-- `RtuApplicationLayer.encode` (lines 141-150): `[unit | fc | data |
CRC16 little-endian]`. -/
def rtuEncode (a : Adu) : List Nat :=
  let payload := [a.unit, a.fc] ++ a.data
  payload ++ [crc payload % 256, crc payload / 256]

/-- JS `Number('0x' + cc)` on a single hex digit character code. -/
def hexVal (c : Nat) : Option Nat :=
  if 48 ≤ c ∧ c ≤ 57 then some (c - 48)
  else if 65 ≤ c ∧ c ≤ 70 then some (c - 55)
  else if 97 ≤ c ∧ c ≤ 102 then some (c - 87)
  else none

/-- Decode one pair of hex characters to a byte; a pair that is not valid hex
parses to `NaN`, which `Buffer.from` coerces to byte 0. -/
def decodeHexPair (c1 c2 : Nat) : Nat :=
  match hexVal c1, hexVal c2 with
  | some a, some b => 16 * a + b
  | _, _ => 0

/-- The hex-unpacking loop of `AsciiApplicationLayer.framing`
(part_004 lines 91-99): consume characters two at a time. -/
def asciiUnpack : List Nat → List Nat
  | c1 :: c2 :: rest => decodeHexPair c1 c2 :: asciiUnpack rest
  | _ => []

/-- The tentative frame the ASCII framer builds after unpacking the hex
characters: `unit | fc | data | LRC`, with the raw character buffer kept. -/
def asciiFrameOf (chars : List Nat) : Frame :=
  let buffer := asciiUnpack chars
  { unit := buffer.getD 0 0
    fc := buffer.getD 1 0
    data := (buffer.take (buffer.length - 1)).drop 2
    buffer := chars }

/-- `AsciiApplicationLayer.framing` (part_004 lines 88-142): length ≥ 6 and
even, unpack hex pairs, split as `unit | fc | data | LRC`, optional
pre-check pipeline, then the LRC check. -/
def asciiFraming (waiting : Option (List (Frame → CheckRes))) (chars : List Nat) :
    Except ModbusErr Frame :=
  if chars.length ≥ 6 then
    if chars.length % 2 == 0 then
      match waitCheck runPreChecksAscii waiting (asciiFrameOf chars) with
      | some e => .error e
      | none =>
        if (asciiUnpack chars).getD ((asciiUnpack chars).length - 1) 0
            == lrc ((asciiUnpack chars).take ((asciiUnpack chars).length - 1))
        then .ok (asciiFrameOf chars)
        else .error .lrcCheckFailed
    else .error .invalidData
  else .error .insufficientDataLength

/-- Uppercase hex digit character code, as produced by
`value.toString(16).toUpperCase()`. -/
def hexDigitChar (d : Nat) : Nat :=
  if d < 10 then 48 + d else 55 + d

/-- Two-character uppercase zero-padded hex rendering of a byte
(`value.toString(16).toUpperCase().padStart(2, '0')`). -/
def toHexPair (n : Nat) : List Nat :=
  [hexDigitChar (n / 16), hexDigitChar (n % 16)]

/-- `AsciiApplicationLayer.encode` (part_004 lines 157-171):
`':' HEX(unit) HEX(fc) HEX(data) HEX(LRC) CR LF`. -/
def asciiEncode (a : Adu) : List Nat :=
  let payload := [a.unit, a.fc] ++ a.data
  let withLrc := payload ++ [lrc payload]
  58 :: (withLrc.map toHexPair).flatten ++ [13, 10]

/-- The three scanner states of the ASCII framer. -/
inductive AsciiStatus where
  | idle
  | reception
  | waitingEnd
deriving Repr, DecidableEq

/-- Scanner state: status plus the accumulated character buffer
(the source's `_status` / `_frame` fields). -/
structure AsciiState where
  status : AsciiStatus
  frame : List Nat
deriving Repr, DecidableEq

/-- One byte of the ASCII scanner (part_004 lines 28-71).  The second
component is the character buffer handed to `framing` when the byte
completes a frame (CR already seen and an LF arrives). -/
def asciiStep (st : AsciiState) (value : Nat) : AsciiState × Option (List Nat) :=
  match st.status with
  | .idle =>
    if value == 58 then ({ status := .reception, frame := [] }, none)
    else (st, none)
  | .reception =>
    if value == 58 then ({ st with frame := [] }, none)
    else if value == 13 then ({ st with status := .waitingEnd }, none)
    else ({ st with frame := st.frame ++ [value] }, none)
  | .waitingEnd =>
    if value == 58 then ({ status := .reception, frame := [] }, none)
    else if value == 10 then ({ st with status := .idle }, some st.frame)
    else ({ st with status := .idle }, none)

/-- One step of the burst fold: advance the scanner and append any character
buffer handed to `framing`. -/
def asciiFoldStep (acc : AsciiState × List (List Nat)) (v : Nat) :
    AsciiState × List (List Nat) :=
  let step := asciiStep acc.1 v
  (step.1, acc.2 ++ step.2.toList)

/-- Process one inbound burst byte-by-byte, collecting every character
buffer handed to `framing`. -/
def asciiProcess (st : AsciiState) (burst : List Nat) : AsciiState × List (List Nat) :=
  burst.foldl asciiFoldStep (st, [])

/-- The ASCII layer's close handler (part_004 lines 78-81):
`status = idle; frame = []`. -/
def asciiHandleClose (_ : AsciiState) : AsciiState :=
  { status := .idle, frame := [] }

/-- The tentative frame the MBAP framer builds: transaction from bytes 0-1,
unit at byte 6, fc at byte 7, data from byte 8 on. -/
def tcpFrameOf (buffer : List Nat) : Frame :=
  { transaction := some (readUInt16BE buffer 0)
    unit := buffer.getD 6 0
    fc := buffer.getD 7 0
    data := buffer.drop 8
    buffer := buffer }

/-- `TcpApplicationLayer.framing` (lines 33-73): require 8 bytes, protocol
field zero, `length field + 6 == buffer length`; then the optional
pre-check pipeline (same loop as RTU); no checksum. -/
def tcpFraming (waiting : Option (List (Frame → CheckRes))) (buffer : List Nat) :
    Except ModbusErr Frame :=
  if buffer.length ≥ 8 then
    if buffer.getD 2 0 == 0 && buffer.getD 3 0 == 0
        && readUInt16BE buffer 4 == buffer.length - 6 then
      match waitCheck runPreChecksSwapped waiting (tcpFrameOf buffer) with
      | some e => .error e
      | none => .ok (tcpFrameOf buffer)
    else .error .invalidData
  else .error .insufficientDataLength

/-- `TcpApplicationLayer.encode` (lines 86-98): MBAP header with
`transaction = data.transaction ?? counter`, protocol 0, length field
`data.length + 2`; afterwards the counter advances as
`(counter + 1) % 256 || 1`.  Returns the buffer and the new counter. -/
def tcpEncode (counter : Nat) (a : Adu) : List Nat × Nat :=
  let tid := a.transaction.getD counter
  let buffer := [tid / 256, tid % 256, 0, 0,
                 (a.data.length + 2) / 256, (a.data.length + 2) % 256,
                 a.unit, a.fc] ++ a.data
  let next := (counter + 1) % 256
  (buffer, if next == 0 then 1 else next)

/-- A sequence of `encode` calls on one `TcpApplicationLayer`, threading the
transaction-id counter (initial value 1 in the source). -/
def tcpEncodeSeq (counter : Nat) : List Adu → List (List Nat) × Nat
  | [] => ([], counter)
  | a :: rest =>
    let step := tcpEncode counter a
    let tail := tcpEncodeSeq step.2 rest
    (step.1 :: tail.1, tail.2)

/-- The transaction ids the encoder assigns itself (calls whose ADU carries
no transaction id), over a sequence of `encode` calls. -/
def tcpAutoIds (counter : Nat) : List Adu → List Nat
  | [] => []
  | a :: rest =>
    let step := tcpEncode counter a
    match a.transaction with
    | some _ => tcpAutoIds step.2 rest
    | none => counter :: tcpAutoIds step.2 rest

/-- The hex character body of an ASCII-encoded ADU: everything between the
leading ':' and the trailing CR LF. -/
def asciiHexBody (a : Adu) : List Nat :=
  ((([a.unit, a.fc] ++ a.data) ++ [lrc ([a.unit, a.fc] ++ a.data)]).map toHexPair).flatten

theorem lrc_lt (data : List Nat) : lrc data < 256 := by
  unfold lrc
  omega

theorem rtuEncode_framing (a : Adu) (hu : a.unit < 256) (hf : a.fc < 256)
    (hd : ∀ b ∈ a.data, b < 256) :
    rtuFraming none (rtuEncode a) = .ok ⟨⟨none, a.unit, a.fc, a.data⟩, rtuEncode a⟩ := by
  have hp : ∀ b ∈ [a.unit, a.fc] ++ a.data, b < 256 := by
    intro b hb
    rcases List.mem_append.mp hb with hb | hb
    · simp only [List.mem_cons, List.mem_singleton, List.not_mem_nil, or_false] at hb
      rcases hb with rfl | rfl <;> omega
    · exact hd b hb
  have hc : crc ([a.unit, a.fc] ++ a.data) < 65536 := crc_lt _ hp
  have henc : rtuEncode a
      = ([a.unit, a.fc] ++ a.data)
        ++ [crc ([a.unit, a.fc] ++ a.data) % 256, crc ([a.unit, a.fc] ++ a.data) / 256] := rfl
  have hlen : (rtuEncode a).length = a.data.length + 4 := by
    simp [henc]
  have hidx : (rtuEncode a).length - 2 = ([a.unit, a.fc] ++ a.data).length := by
    simp [hlen]
  have htake : (rtuEncode a).take ((rtuEncode a).length - 2) = [a.unit, a.fc] ++ a.data := by
    rw [hidx, henc, List.take_left]
  have hread : readUInt16LE (rtuEncode a) ((rtuEncode a).length - 2)
      = crc ([a.unit, a.fc] ++ a.data) := by
    rw [readUInt16LE, hidx, henc]
    rw [List.getD_append_right _ _ _ _ (Nat.le_refl _),
      List.getD_append_right _ _ _ _ (Nat.le_succ_of_le (Nat.le_refl _))]
    simp only [Nat.sub_self]
    have h1 : ([a.unit, a.fc] ++ a.data).length + 1 - ([a.unit, a.fc] ++ a.data).length = 1 := by
      omega
    rw [h1]
    simp only [List.getD_cons_zero, List.getD_cons_succ]
    omega
  have hframe : rtuFrameOf (rtuEncode a) = ⟨⟨none, a.unit, a.fc, a.data⟩, rtuEncode a⟩ := by
    rw [rtuFrameOf, htake]
    have h0 : (rtuEncode a).getD 0 0 = a.unit := by rw [henc]; rfl
    have h1 : (rtuEncode a).getD 1 0 = a.fc := by rw [henc]; rfl
    rw [h0, h1]
    rfl
  rw [rtuFraming]
  rw [if_pos (by omega)]
  simp only [waitCheck_none, htake, hread, hframe, beq_self_eq_true, if_true]

theorem hexVal_hexDigitChar (d : Nat) (h : d < 16) :
    hexVal (hexDigitChar d) = some d := by
  unfold hexVal hexDigitChar
  split
  · rw [if_pos (by omega)]
    exact congrArg some (by omega)
  · rw [if_neg (by omega), if_pos (by omega)]
    exact congrArg some (by omega)

theorem decodeHexPair_toHexPair (n : Nat) (h : n < 256) :
    decodeHexPair (hexDigitChar (n / 16)) (hexDigitChar (n % 16)) = n := by
  rw [decodeHexPair, hexVal_hexDigitChar _ (by omega),
    hexVal_hexDigitChar _ (Nat.mod_lt _ (by norm_num))]
  show 16 * (n / 16) + n % 16 = n
  omega

theorem asciiUnpack_flatten (l : List Nat) (h : ∀ n ∈ l, n < 256) :
    asciiUnpack ((l.map toHexPair).flatten) = l := by
  induction l with
  | nil => rfl
  | cons x xs ih =>
      simp only [List.map_cons, List.flatten_cons, toHexPair, List.cons_append,
        List.nil_append]
      rw [show (hexDigitChar (x / 16) :: hexDigitChar (x % 16) :: (xs.map toHexPair).flatten)
          = hexDigitChar (x / 16) :: hexDigitChar (x % 16) :: (xs.map toHexPair).flatten from rfl]
      rw [asciiUnpack]
      rw [decodeHexPair_toHexPair x (h x (by simp)), ih (fun n hn => h n (by simp [hn]))]

theorem hexDigitChar_notSpecial (d : Nat) (h : d < 16) :
    hexDigitChar d ≠ 58 ∧ hexDigitChar d ≠ 13 ∧ hexDigitChar d ≠ 10 := by
  unfold hexDigitChar
  split <;> omega

theorem flatten_map_toHexPair_length (l : List Nat) :
    ((l.map toHexPair).flatten).length = 2 * l.length := by
  induction l with
  | nil => rfl
  | cons x xs ih => simp [toHexPair, ih]; omega

theorem asciiFoldStep_reception_run (cs : List Nat)
    (h : ∀ c ∈ cs, c ≠ 58 ∧ c ≠ 13 ∧ c ≠ 10) (buf : List Nat)
    (acc : List (List Nat)) :
    cs.foldl asciiFoldStep (⟨.reception, buf⟩, acc) = (⟨.reception, buf ++ cs⟩, acc) := by
  induction cs generalizing buf with
  | nil => simp
  | cons c cs ih =>
      obtain ⟨h1, h2, _⟩ := h c (by simp)
      simp only [List.foldl_cons]
      rw [show asciiFoldStep (⟨.reception, buf⟩, acc) c
          = ((⟨.reception, buf ++ [c]⟩ : AsciiState), acc) from by
        simp [asciiFoldStep, asciiStep, h1, h2]]
      rw [ih (fun x hx => h x (by simp [hx])) (buf ++ [c])]
      simp

theorem asciiEncode_process (a : Adu) (f0 : List Nat)
    (hu : a.unit < 256) (hf : a.fc < 256) (hd : ∀ b ∈ a.data, b < 256) :
    asciiProcess ⟨.idle, f0⟩ (asciiEncode a)
      = (⟨.idle, asciiHexBody a⟩, [asciiHexBody a]) := by
  have hwl : ∀ n ∈ ([a.unit, a.fc] ++ a.data) ++ [lrc ([a.unit, a.fc] ++ a.data)], n < 256 := by
    intro n hn
    rcases List.mem_append.mp hn with hn | hn
    · rcases List.mem_append.mp hn with hn | hn
      · simp only [List.mem_cons, List.mem_singleton, List.not_mem_nil, or_false] at hn
        rcases hn with rfl | rfl <;> omega
      · exact hd n hn
    · simp only [List.mem_singleton] at hn
      subst hn
      exact lrc_lt _
  have hsafe : ∀ c ∈ asciiHexBody a, c ≠ 58 ∧ c ≠ 13 ∧ c ≠ 10 := by
    intro c hc
    rw [asciiHexBody] at hc
    obtain ⟨pair, hpair, hcp⟩ := List.mem_flatten.mp hc
    obtain ⟨n, hn, rfl⟩ := List.mem_map.mp hpair
    have hn256 : n < 256 := hwl n hn
    rw [toHexPair] at hcp
    simp only [List.mem_cons, List.mem_singleton, List.not_mem_nil, or_false] at hcp
    rcases hcp with rfl | rfl
    · exact hexDigitChar_notSpecial _ (by omega)
    · exact hexDigitChar_notSpecial _ (Nat.mod_lt _ (by norm_num))
  have henc : asciiEncode a = 58 :: (asciiHexBody a ++ [13, 10]) := by
    simp [asciiEncode, asciiHexBody]
  rw [asciiProcess, henc]
  simp only [List.foldl_cons]
  rw [show asciiFoldStep ((⟨.idle, f0⟩ : AsciiState), []) 58
      = ((⟨.reception, []⟩ : AsciiState), []) from by simp [asciiFoldStep, asciiStep]]
  rw [show asciiHexBody a ++ [13, 10] = asciiHexBody a ++ ([13] ++ [10]) from by simp]
  rw [← List.append_assoc, List.foldl_append, List.foldl_append]
  rw [asciiFoldStep_reception_run (asciiHexBody a) hsafe [] []]
  simp only [List.nil_append, List.foldl_cons, List.foldl_nil]
  rw [show asciiFoldStep ((⟨.reception, asciiHexBody a⟩ : AsciiState), []) 13
      = ((⟨.waitingEnd, asciiHexBody a⟩ : AsciiState), []) from by
    simp [asciiFoldStep, asciiStep]]
  simp only [asciiFoldStep, asciiStep]
  rfl

theorem asciiBody_framing (a : Adu) (hu : a.unit < 256) (hf : a.fc < 256)
    (hd : ∀ b ∈ a.data, b < 256) :
    asciiFraming none (asciiHexBody a)
      = .ok ⟨⟨none, a.unit, a.fc, a.data⟩, asciiHexBody a⟩ := by
  have hwl : ∀ n ∈ ([a.unit, a.fc] ++ a.data) ++ [lrc ([a.unit, a.fc] ++ a.data)], n < 256 := by
    intro n hn
    rcases List.mem_append.mp hn with hn | hn
    · rcases List.mem_append.mp hn with hn | hn
      · simp only [List.mem_cons, List.mem_singleton, List.not_mem_nil, or_false] at hn
        rcases hn with rfl | rfl <;> omega
      · exact hd n hn
    · simp only [List.mem_singleton] at hn
      subst hn
      exact lrc_lt _
  have hunpack : asciiUnpack (asciiHexBody a)
      = ([a.unit, a.fc] ++ a.data) ++ [lrc ([a.unit, a.fc] ++ a.data)] := by
    rw [asciiHexBody]
    exact asciiUnpack_flatten _ hwl
  have hblen : (asciiHexBody a).length = 2 * (a.data.length + 3) := by
    rw [asciiHexBody, flatten_map_toHexPair_length]
    simp only [List.length_append, List.length_cons, List.length_nil]
    omega
  have hulen : (asciiUnpack (asciiHexBody a)).length = a.data.length + 3 := by
    rw [hunpack]
    simp
  rw [asciiFraming]
  rw [if_pos (by omega)]
  rw [if_pos (by rw [hblen]; simp [Nat.mul_mod_right])]
  have hidx : (asciiUnpack (asciiHexBody a)).length - 1 = ([a.unit, a.fc] ++ a.data).length := by
    rw [hulen]
    simp only [List.length_append, List.length_cons, List.length_nil]
    omega
  have htake : (asciiUnpack (asciiHexBody a)).take ((asciiUnpack (asciiHexBody a)).length - 1)
      = [a.unit, a.fc] ++ a.data := by
    rw [hidx, hunpack, List.take_left]
  have hlast : (asciiUnpack (asciiHexBody a)).getD ((asciiUnpack (asciiHexBody a)).length - 1) 0
      = lrc ([a.unit, a.fc] ++ a.data) := by
    rw [hidx, hunpack, List.getD_append_right _ _ _ _ (Nat.le_refl _)]
    simp
  have h0 : (asciiUnpack (asciiHexBody a)).getD 0 0 = a.unit := by rw [hunpack]; rfl
  have h1 : (asciiUnpack (asciiHexBody a)).getD 1 0 = a.fc := by rw [hunpack]; rfl
  simp only [asciiFrameOf, htake, hlast, h0, h1, beq_self_eq_true, if_true]
  rfl

theorem tcpEncode_framing (a : Adu) (counter t : Nat) (ht : a.transaction = some t) :
    tcpFraming none (tcpEncode counter a).1
      = .ok ⟨⟨some t, a.unit, a.fc, a.data⟩, (tcpEncode counter a).1⟩ := by
  have henc : (tcpEncode counter a).1
      = [t / 256, t % 256, 0, 0,
         (a.data.length + 2) / 256, (a.data.length + 2) % 256,
         a.unit, a.fc] ++ a.data := by
    simp [tcpEncode, ht]
  have hlen : ((tcpEncode counter a).1).length = a.data.length + 8 := by
    rw [henc]
    simp only [List.length_append, List.length_cons, List.length_nil]
    omega
  rw [tcpFraming]
  rw [if_pos (by omega)]
  rw [henc]
  have h2 : ([t / 256, t % 256, 0, 0,
         (a.data.length + 2) / 256, (a.data.length + 2) % 256,
         a.unit, a.fc] ++ a.data).getD 2 0 = 0 := rfl
  have h3 : ([t / 256, t % 256, 0, 0,
         (a.data.length + 2) / 256, (a.data.length + 2) % 256,
         a.unit, a.fc] ++ a.data).getD 3 0 = 0 := rfl
  have h45 : readUInt16BE ([t / 256, t % 256, 0, 0,
         (a.data.length + 2) / 256, (a.data.length + 2) % 256,
         a.unit, a.fc] ++ a.data) 4
      = ([t / 256, t % 256, 0, 0,
         (a.data.length + 2) / 256, (a.data.length + 2) % 256,
         a.unit, a.fc] ++ a.data).length - 6 := by
    rw [readUInt16BE]
    simp only [List.cons_append, List.getD_cons_succ, List.getD_cons_zero,
      List.length_cons, List.length_append, List.length_nil]
    omega
  rw [if_pos (by rw [h2, h3, h45]; simp)]
  have ht0 : readUInt16BE ([t / 256, t % 256, 0, 0,
         (a.data.length + 2) / 256, (a.data.length + 2) % 256,
         a.unit, a.fc] ++ a.data) 0 = t := by
    rw [readUInt16BE]
    simp only [List.cons_append, List.getD_cons_succ, List.getD_cons_zero]
    omega
  simp only [tcpFrameOf, ht0]
  rfl

/-- C1: Encode/decode round-trip holds for every framing variant: for every
ADU whose unit, fc, and data bytes are each in 0..255, the bytes produced by
`encode` are accepted by that variant's framing (CRC passes for RTU, the
ASCII scanner walks the frame and the LRC passes, the MBAP header checks
pass) and yield a frame with the same unit, fc, and data — and, for MBAP,
the same caller-supplied 16-bit transaction id. -/
theorem c1_encode_framing_roundtrip (a : Adu) (counter : Nat)
    (hu : a.unit < 256) (hf : a.fc < 256) (hd : ∀ b ∈ a.data, b < 256) :
    rtuFraming none (rtuEncode a) = .ok ⟨⟨none, a.unit, a.fc, a.data⟩, rtuEncode a⟩
    ∧ asciiProcess ⟨.idle, []⟩ (asciiEncode a) = (⟨.idle, asciiHexBody a⟩, [asciiHexBody a])
    ∧ asciiFraming none (asciiHexBody a) = .ok ⟨⟨none, a.unit, a.fc, a.data⟩, asciiHexBody a⟩
    ∧ (∀ t, a.transaction = some t → t < 65536 →
        tcpFraming none (tcpEncode counter a).1
          = .ok ⟨⟨some t, a.unit, a.fc, a.data⟩, (tcpEncode counter a).1⟩) :=
  ⟨rtuEncode_framing a hu hf hd, asciiEncode_process a [] hu hf hd,
   asciiBody_framing a hu hf hd,
   fun t ht _ => tcpEncode_framing a counter t ht⟩

/-- C1 witness: the round-trip evaluated at the concrete ADU
`transaction 5, unit 17, fc 3, data [0, 107, 0, 3]` with counter 1. -/
theorem c1_encode_framing_roundtrip_witness :
    rtuFraming none (rtuEncode ⟨some 5, 17, 3, [0, 107, 0, 3]⟩)
      = .ok ⟨⟨none, 17, 3, [0, 107, 0, 3]⟩, rtuEncode ⟨some 5, 17, 3, [0, 107, 0, 3]⟩⟩
    ∧ asciiProcess ⟨.idle, []⟩ (asciiEncode ⟨some 5, 17, 3, [0, 107, 0, 3]⟩)
      = (⟨.idle, asciiHexBody ⟨some 5, 17, 3, [0, 107, 0, 3]⟩⟩,
         [asciiHexBody ⟨some 5, 17, 3, [0, 107, 0, 3]⟩])
    ∧ asciiFraming none (asciiHexBody ⟨some 5, 17, 3, [0, 107, 0, 3]⟩)
      = .ok ⟨⟨none, 17, 3, [0, 107, 0, 3]⟩, asciiHexBody ⟨some 5, 17, 3, [0, 107, 0, 3]⟩⟩
    ∧ tcpFraming none (tcpEncode 1 ⟨some 5, 17, 3, [0, 107, 0, 3]⟩).1
      = .ok ⟨⟨some 5, 17, 3, [0, 107, 0, 3]⟩, (tcpEncode 1 ⟨some 5, 17, 3, [0, 107, 0, 3]⟩).1⟩ := by
  have h := c1_encode_framing_roundtrip ⟨some 5, 17, 3, [0, 107, 0, 3]⟩ 1
    (by norm_num) (by norm_num) (by decide)
  exact ⟨h.1, h.2.1, h.2.2.1, h.2.2.2 5 rfl (by norm_num)⟩

theorem runPreChecksSwapped_cons_num (c : Frame → CheckRes)
    (rest : List (Frame → CheckRes)) (f : Frame) (n : Nat)
    (hc : c f = .num n) (hn : n ≠ 0) :
    runPreChecksSwapped (c :: rest) f =
      if n < f.data.length then some .insufficientDataLength
      else if n ≠ f.data.length then some .invalidResponse
      else runPreChecksSwapped rest f := by
  rw [runPreChecksSwapped]
  rw [hc]
  show (if n < f.data.length then some ModbusErr.insufficientDataLength
      else if n ≠ f.data.length then some ModbusErr.invalidResponse
      else if n == 0 then some ModbusErr.invalidResponse
      else runPreChecksSwapped rest f) = _
  split_ifs with h1 h2 h3
  · rfl
  · rfl
  · exact absurd (by simpa using h3) hn
  · rfl

theorem runPreChecksAscii_cons_num (c : Frame → CheckRes)
    (rest : List (Frame → CheckRes)) (f : Frame) (n : Nat)
    (hc : c f = .num n) (hn : n ≠ 0) :
    runPreChecksAscii (c :: rest) f =
      if f.data.length < n then some .insufficientDataLength
      else if f.data.length ≠ n then some .invalidResponse
      else runPreChecksAscii rest f := by
  rw [runPreChecksAscii]
  rw [hc]
  show (if f.data.length < n then some ModbusErr.insufficientDataLength
      else if f.data.length ≠ n then some ModbusErr.invalidResponse
      else if n == 0 then some ModbusErr.invalidResponse
      else runPreChecksAscii rest f) = _
  split_ifs with h1 h2 h3
  · rfl
  · rfl
  · exact absurd (by simpa using h3) hn
  · rfl

theorem rtuFraming_cons_num (buf : List Nat) (c : Frame → CheckRes)
    (rest : List (Frame → CheckRes)) (n : Nat) (h4 : buf.length ≥ 4)
    (hc : c (rtuFrameOf buf) = .num n) (hn : n ≠ 0) :
    rtuFraming (some (c :: rest)) buf =
      if n < (rtuFrameOf buf).data.length then .error .insufficientDataLength
      else if n ≠ (rtuFrameOf buf).data.length then .error .invalidResponse
      else rtuFraming (some rest) buf := by
  conv_lhs => rw [rtuFraming, if_pos h4, waitCheck_some,
    runPreChecksSwapped_cons_num c rest _ n hc hn]
  by_cases h1 : n < (rtuFrameOf buf).data.length
  · simp [h1]
  · by_cases h2 : n ≠ (rtuFrameOf buf).data.length
    · simp [h1, h2]
    · rw [if_neg h1, if_neg h2, if_neg h1, if_neg h2]
      conv_rhs => rw [rtuFraming, if_pos h4, waitCheck_some]

theorem asciiFraming_cons_num (chars : List Nat) (c : Frame → CheckRes)
    (rest : List (Frame → CheckRes)) (n : Nat) (h6 : chars.length ≥ 6)
    (heven : chars.length % 2 = 0)
    (hc : c (asciiFrameOf chars) = .num n) (hn : n ≠ 0) :
    asciiFraming (some (c :: rest)) chars =
      if (asciiFrameOf chars).data.length < n then .error .insufficientDataLength
      else if (asciiFrameOf chars).data.length ≠ n then .error .invalidResponse
      else asciiFraming (some rest) chars := by
  have heven2 : (chars.length % 2 == 0) = true := by simp [heven]
  conv_lhs => rw [asciiFraming, if_pos h6, if_pos heven2, waitCheck_some,
    runPreChecksAscii_cons_num c rest _ n hc hn]
  by_cases h1 : (asciiFrameOf chars).data.length < n
  · simp [h1]
  · by_cases h2 : (asciiFrameOf chars).data.length ≠ n
    · simp [h1, h2]
    · rw [if_neg h1, if_neg h2, if_neg h1, if_neg h2]
      conv_rhs => rw [asciiFraming, if_pos h6, if_pos heven2, waitCheck_some]

theorem tcpFraming_cons_num (buf : List Nat) (c : Frame → CheckRes)
    (rest : List (Frame → CheckRes)) (n : Nat) (h8 : buf.length ≥ 8)
    (hhdr : (buf.getD 2 0 == 0 && buf.getD 3 0 == 0
      && readUInt16BE buf 4 == buf.length - 6) = true)
    (hc : c (tcpFrameOf buf) = .num n) (hn : n ≠ 0) :
    tcpFraming (some (c :: rest)) buf =
      if n < (tcpFrameOf buf).data.length then .error .insufficientDataLength
      else if n ≠ (tcpFrameOf buf).data.length then .error .invalidResponse
      else tcpFraming (some rest) buf := by
  conv_lhs => rw [tcpFraming, if_pos h8, if_pos hhdr, waitCheck_some,
    runPreChecksSwapped_cons_num c rest _ n hc hn]
  by_cases h1 : n < (tcpFrameOf buf).data.length
  · simp [h1]
  · by_cases h2 : n ≠ (tcpFrameOf buf).data.length
    · simp [h1, h2]
    · rw [if_neg h1, if_neg h2, if_neg h1, if_neg h2]
      conv_rhs => rw [tcpFraming, if_pos h8, if_pos hhdr, waitCheck_some]

/-- C2 counterexample: in response-wait mode the RTU framer, given a frame
whose PDU data length is 2 and a pre-check returning the integer 3 (data
length less than N), reports `Invalid response` — not
`Insufficient data length` as the claim states for all three variants. -/
theorem c2_counterexample_rtu_direction :
    rtuFraming (some [fun _ => CheckRes.num 3]) [1, 2, 5, 6, 0, 0]
      = .error .invalidResponse
    ∧ rtuFraming (some [fun _ => CheckRes.num 3]) [1, 2, 5, 6, 0, 0]
      ≠ .error .insufficientDataLength := by
  refine ⟨rfl, ?_⟩
  intro h
  rw [show rtuFraming (some [fun _ => CheckRes.num 3]) [1, 2, 5, 6, 0, 0]
      = .error .invalidResponse from rfl] at h
  simp at h

/-- C2 (amended): in response-wait mode, for a pre-check returning the
integer N ≠ 0: the ASCII framer reports `Insufficient data length` when the
PDU data length is less than N and `Invalid response` when it is greater,
as the claim states; the RTU and MBAP framers have the two error directions
swapped (`Insufficient data length` when the data length exceeds N,
`Invalid response` when it falls short).  In all variants, equality with
N ≠ 0 continues the pipeline with the remaining predicates (N = 0 would
fall through to the JS falsiness test and fail with `Invalid response`). -/
theorem c2_precheck_length_directions :
    (∀ (buf : List Nat) (c : Frame → CheckRes) (rest : List (Frame → CheckRes)) (n : Nat),
      buf.length ≥ 4 → c (rtuFrameOf buf) = .num n → n ≠ 0 →
      rtuFraming (some (c :: rest)) buf =
        if n < (rtuFrameOf buf).data.length then .error .insufficientDataLength
        else if n ≠ (rtuFrameOf buf).data.length then .error .invalidResponse
        else rtuFraming (some rest) buf)
    ∧ (∀ (chars : List Nat) (c : Frame → CheckRes) (rest : List (Frame → CheckRes)) (n : Nat),
      chars.length ≥ 6 → chars.length % 2 = 0 →
      c (asciiFrameOf chars) = .num n → n ≠ 0 →
      asciiFraming (some (c :: rest)) chars =
        if (asciiFrameOf chars).data.length < n then .error .insufficientDataLength
        else if (asciiFrameOf chars).data.length ≠ n then .error .invalidResponse
        else asciiFraming (some rest) chars)
    ∧ (∀ (buf : List Nat) (c : Frame → CheckRes) (rest : List (Frame → CheckRes)) (n : Nat),
      buf.length ≥ 8 →
      (buf.getD 2 0 == 0 && buf.getD 3 0 == 0
        && readUInt16BE buf 4 == buf.length - 6) = true →
      c (tcpFrameOf buf) = .num n → n ≠ 0 →
      tcpFraming (some (c :: rest)) buf =
        if n < (tcpFrameOf buf).data.length then .error .insufficientDataLength
        else if n ≠ (tcpFrameOf buf).data.length then .error .invalidResponse
        else tcpFraming (some rest) buf) :=
  ⟨fun buf c rest n h4 hc hn => rtuFraming_cons_num buf c rest n h4 hc hn,
   fun chars c rest n h6 heven hc hn => asciiFraming_cons_num chars c rest n h6 heven hc hn,
   fun buf c rest n h8 hhdr hc hn => tcpFraming_cons_num buf c rest n h8 hhdr hc hn⟩

/-- C2 witness: the amended pre-check semantics evaluated on concrete
frames for each variant. -/
theorem c2_precheck_length_directions_witness :
    (rtuFraming (some [fun _ => CheckRes.num 3]) [1, 2, 5, 6, 0, 0] =
        if 3 < (rtuFrameOf [1, 2, 5, 6, 0, 0]).data.length then .error .insufficientDataLength
        else if 3 ≠ (rtuFrameOf [1, 2, 5, 6, 0, 0]).data.length then .error .invalidResponse
        else rtuFraming (some []) [1, 2, 5, 6, 0, 0])
    ∧ (asciiFraming (some [fun _ => CheckRes.num 1]) [48, 49, 48, 50, 48, 51] =
        if (asciiFrameOf [48, 49, 48, 50, 48, 51]).data.length < 1
        then .error .insufficientDataLength
        else if (asciiFrameOf [48, 49, 48, 50, 48, 51]).data.length ≠ 1
        then .error .invalidResponse
        else asciiFraming (some []) [48, 49, 48, 50, 48, 51])
    ∧ (tcpFraming (some [fun _ => CheckRes.num 2]) [0, 1, 0, 0, 0, 3, 9, 8, 7] =
        if 2 < (tcpFrameOf [0, 1, 0, 0, 0, 3, 9, 8, 7]).data.length
        then .error .insufficientDataLength
        else if 2 ≠ (tcpFrameOf [0, 1, 0, 0, 0, 3, 9, 8, 7]).data.length
        then .error .invalidResponse
        else tcpFraming (some []) [0, 1, 0, 0, 0, 3, 9, 8, 7]) :=
  ⟨c2_precheck_length_directions.1 [1, 2, 5, 6, 0, 0] (fun _ => CheckRes.num 3) [] 3
      (by norm_num) rfl (by norm_num),
   c2_precheck_length_directions.2.1 [48, 49, 48, 50, 48, 51] (fun _ => CheckRes.num 1) [] 1
      (by norm_num) (by norm_num) rfl (by norm_num),
   c2_precheck_length_directions.2.2 [0, 1, 0, 0, 0, 3, 9, 8, 7] (fun _ => CheckRes.num 2) [] 2
      (by norm_num) (by decide) rfl (by norm_num)⟩

theorem tcpEncode_counter_bounds (counter : Nat) (a : Adu)
    (h1 : 1 ≤ counter) (h2 : counter ≤ 255) :
    1 ≤ (tcpEncode counter a).2 ∧ (tcpEncode counter a).2 ≤ 255 := by
  simp only [tcpEncode]
  split
  · omega
  · rename_i h
    simp only [beq_iff_eq] at h
    constructor
    · omega
    · have : (counter + 1) % 256 < 256 := Nat.mod_lt _ (by norm_num)
      omega

theorem tcpAutoIds_bounds (adus : List Adu) (counter : Nat)
    (h1 : 1 ≤ counter) (h2 : counter ≤ 255) :
    ∀ x ∈ tcpAutoIds counter adus, 1 ≤ x ∧ x ≤ 255 := by
  induction adus generalizing counter with
  | nil => intro x hx; simp [tcpAutoIds] at hx
  | cons a rest ih =>
      intro x hx
      obtain ⟨hn1, hn2⟩ := tcpEncode_counter_bounds counter a h1 h2
      rw [tcpAutoIds] at hx
      cases ht : a.transaction with
      | some t =>
          rw [ht] at hx
          exact ih _ hn1 hn2 x hx
      | none =>
          rw [ht] at hx
          rcases List.mem_cons.mp hx with rfl | hx
          · exact ⟨h1, h2⟩
          · exact ih _ hn1 hn2 x hx

/-- C8: MBAP transaction-id assignment.  An `encode` call whose ADU carries
a transaction id writes that id into the header; a call without one writes
the current counter; after every encode the counter advances as
`(counter + 1) % 256 || 1`; and over any sequence of encodes starting from
the initial counter 1, every auto-assigned transaction id lies in 1..255
(in particular it is never 0). -/
theorem c8_transaction_id_assignment :
    (∀ (counter t : Nat) (a : Adu), a.transaction = some t → t < 65536 →
      readUInt16BE (tcpEncode counter a).1 0 = t)
    ∧ (∀ (counter : Nat) (a : Adu), a.transaction = none →
      readUInt16BE (tcpEncode counter a).1 0 = counter)
    ∧ (∀ (counter : Nat) (a : Adu),
      (tcpEncode counter a).2
        = if (counter + 1) % 256 == 0 then 1 else (counter + 1) % 256)
    ∧ (∀ (adus : List Adu) (x : Nat), x ∈ tcpAutoIds 1 adus → 1 ≤ x ∧ x ≤ 255) := by
  refine ⟨?_, ?_, ?_, ?_⟩
  · intro counter t a ht _
    simp [tcpEncode, ht, readUInt16BE]
    omega
  · intro counter a ht
    simp [tcpEncode, ht, readUInt16BE]
    omega
  · intro counter a
    simp [tcpEncode]
  · intro adus x hx
    exact tcpAutoIds_bounds adus 1 (by norm_num) (by norm_num) x hx

/-- C8 witness: a supplied transaction id 770 is written verbatim, an
auto-assigned call at counter 9 writes 9, the counter advance formula at 9,
and the auto id from a singleton sequence lies in 1..255. -/
theorem c8_transaction_id_assignment_witness :
    readUInt16BE (tcpEncode 9 ⟨some 770, 1, 3, []⟩).1 0 = 770
    ∧ readUInt16BE (tcpEncode 9 ⟨none, 1, 3, []⟩).1 0 = 9
    ∧ (tcpEncode 9 ⟨none, 1, 3, []⟩).2 = (if (9 + 1) % 256 == 0 then 1 else (9 + 1) % 256)
    ∧ (1 ≤ 1 ∧ 1 ≤ 255) :=
  ⟨c8_transaction_id_assignment.1 9 770 ⟨some 770, 1, 3, []⟩ rfl (by norm_num),
   c8_transaction_id_assignment.2.1 9 ⟨none, 1, 3, []⟩ rfl,
   c8_transaction_id_assignment.2.2.1 9 ⟨none, 1, 3, []⟩,
   c8_transaction_id_assignment.2.2.2 [⟨none, 1, 3, []⟩] 1 (by decide)⟩

/-- C9: after the ASCII layer's close handler runs, the scanner state is
IDLE with an empty accumulation buffer; from that state a byte is consumed
without emission and only ':' (0x3A) leaves IDLE (entering RECEPTION with a
cleared buffer). -/
theorem c9_ascii_close_idle :
    (∀ st : AsciiState, asciiHandleClose st = ⟨.idle, []⟩)
    ∧ (∀ b : Nat, asciiStep ⟨.idle, []⟩ b
        = ((if b == 58 then (⟨.reception, []⟩ : AsciiState) else ⟨.idle, []⟩), none)) := by
  refine ⟨fun _ => rfl, fun b => ?_⟩
  by_cases hb : b == 58
  · simp [asciiStep, hb]
  · simp [asciiStep, hb]

/-- The PREFIX constant of part_009, as a character list. -/
def PREFIX_CHARS : List Char := "MODBUS_ERROR_CODE_".toList

/-- JS `String.prototype.startsWith`. -/
def strStartsWith (p l : List Char) : Bool := l.take p.length == p

/-- The nine `ErrorCode` enum values of part_009. -/
def errorCodes : List Nat := [1, 2, 3, 4, 5, 6, 8, 10, 11]

/-- `getErrorByCode` (part_009): the message of the Error built for a code. -/
def getErrorByCode (code : Nat) : List Char :=
  PREFIX_CHARS ++ Nat.toDigits 10 code

/-- JS `Number(s)` restricted to the fragment the error-code mapping
exercises: a string of decimal digits parses to its value (the empty string
parses to 0, as in JS); anything else is `NaN`, modelled as `none`. -/
def jsStringToNumber (s : List Char) : Option Nat :=
  if s.all (fun ch => ch.isDigit) then
    some (s.foldl (fun a ch => a * 10 + (ch.toNat - 48)) 0)
  else none

/-- `getCodeByError` (part_009): if the message starts with the prefix,
`Number(message.slice(prefix.length))`, else SERVER_DEVICE_FAILURE (4).
`none` stands for `NaN`. -/
def getCodeByError (msg : List Char) : Option Nat :=
  if strStartsWith PREFIX_CHARS msg then jsStringToNumber (msg.drop PREFIX_CHARS.length)
  else some 4

/-- A configured permitted address range: either a single `[lo, hi]` pair or
a list of pairs (src/src/utils/checkRange.ts distinguishes the two by
`typeof range[0]`). -/
inductive JsRange where
  | one (lo hi : Int)
  | many (rs : List (Int × Int))

/-- `every` over the queried points against one interval. -/
def intervalContains (lo hi : Int) (value : List Int) : Bool :=
  value.all (fun n => lo ≤ n && n ≤ hi)

/-- src/src/utils/checkRange.ts: single interval applies only when
`lo < hi` (otherwise fall through to `return true`); a list accepts when
some member interval with `lo < hi` contains every queried point, and an
empty list falls through to `return true`; no configured range accepts. -/
def checkRange (value : List Int) (range : Option JsRange) : Bool :=
  match range with
  | some (.one lo hi) => if lo < hi then intervalContains lo hi value else true
  | some (.many rs) =>
    if rs.length > 0 then rs.any (fun r => r.1 < r.2 && intervalContains r.1 r.2 value)
    else true
  | none => true

/-- The `ServerId` record returned by `reportServerId`. -/
structure ServerId where
  serverId : Option Nat := none
  runIndicatorStatus : Option Bool := none
  additionalData : Option (List Nat) := none

/-- The `getAddressRange` result record. -/
structure AddressRangeConfig where
  discreteInputs : Option JsRange := none
  coils : Option JsRange := none
  inputRegisters : Option JsRange := none
  holdingRegisters : Option JsRange := none

/-- `ModbusSlaveModel` (part_000 lines 10-69).  Callbacks may reject; a
rejection carries the Error message.  Callbacks are modelled as pure
functions (the source accepts sync or async callbacks). -/
structure SlaveModel where
  unit : Option Nat := none
  interceptor : Option (Nat → List Nat → Except (List Char) (Option (List Nat))) := none
  readDiscreteInputs : Option (Nat → Nat → Except (List Char) (List Bool)) := none
  readCoils : Option (Nat → Nat → Except (List Char) (List Bool)) := none
  writeSingleCoil : Option (Nat → Bool → Except (List Char) Unit) := none
  writeMultipleCoils : Option (Nat → List Bool → Except (List Char) Unit) := none
  readInputRegisters : Option (Nat → Nat → Except (List Char) (List Nat)) := none
  readHoldingRegisters : Option (Nat → Nat → Except (List Char) (List Nat)) := none
  writeSingleRegister : Option (Nat → Nat → Except (List Char) Unit) := none
  writeMultipleRegisters : Option (Nat → List Nat → Except (List Char) Unit) := none
  maskWriteRegister : Option (Nat → Nat → Nat → Except (List Char) Unit) := none
  reportServerId : Option (Unit → Except (List Char) ServerId) := none
  readDeviceIdentification : Option (Unit → Except (List Char) (List (Nat × List Nat))) := none
  getAddressRange : Option AddressRangeConfig := none

/-- The observable outcome of one handler run: the response ADU passed to
the reply closure (if any), and the arguments of every `writeSingleRegister`
/ `writeSingleCoil` callback invocation, in invocation order. -/
structure SlaveResult where
  response : Option Adu := none
  regWrites : List (Nat × Nat) := []
  coilWrites : List (Nat × Bool) := []
deriving Repr, DecidableEq

/-- `model.getAddressRange?.().<field>` -/
def rangeOf (m : SlaveModel) (f : AddressRangeConfig → Option JsRange) : Option JsRange :=
  match m.getAddressRange with
  | some cfg => f cfg
  | none => none

/-- `\x7b ...frame, fc: frame.fc | 0x80, data: [code] \x7d`.  -/
def exceptionAdu (frame : Frame) (code : Nat) : Adu :=
  { transaction := frame.transaction
    unit := frame.unit
    fc := frame.fc ||| 0x80
    data := [code] }

/-- `ModbusSlave.responseError` (part_000 lines 695-697): exception fc and a
single payload byte carrying `getCodeByError(error)`.  A message that starts
with the prefix but does not parse as a number makes `Number` return `NaN`
(`none` here); that path would make the source's `writeUInt8` throw and is
represented by byte 0. -/
def responseError (frame : Frame) (msg : List Char) : Adu :=
  exceptionAdu frame ((getCodeByError msg).getD 0)

/-- `\x7b ...frame, data \x7d` — normal response reusing unit/fc/transaction. -/
def normalResponse (frame : Frame) (data : List Nat) : Adu :=
  { transaction := frame.transaction
    unit := frame.unit
    fc := frame.fc
    data := data }

/-- The bit-packing loop of handleFC1/handleFC2:
`coils.forEach((coil, index) => if coil then buf[index/8] |= 1 << index%8)`.
An index beyond the allocated buffer is a silent no-op, as assignment to an
out-of-range `Buffer` index is in Node. -/
def packLoop : List Bool → Nat → List Nat → List Nat
  | [], _, buf => buf
  | c :: rest, i, buf =>
    packLoop rest (i + 1)
      (if c then buf.set (i / 8) ((buf.getD (i / 8) 0) ||| (1 <<< (i % 8))) else buf)

/-- `Buffer.alloc(byteCount)` then the packing loop. -/
def packBits (bits : List Bool) (byteCount : Nat) : List Nat :=
  packLoop bits 0 (List.replicate byteCount 0)

/-- The register-serialization loop of handleFC3/handleFC4/handleFC23:
`registers.forEach((r, i) => buf.writeUInt16BE(r, i*2))` into an allocated
buffer. -/
def writeRegsLoop : List Nat → Nat → List Nat → List Nat
  | [], _, buf => buf
  | r :: rest, i, buf =>
    writeRegsLoop rest (i + 1) ((buf.set (2 * i) (r / 256)).set (2 * i + 1) (r % 256))

/-- `Buffer.alloc(length * 2)` then the register loop. -/
def regsToBytes (regs : List Nat) (length : Nat) : List Nat :=
  writeRegsLoop regs 0 (List.replicate (length * 2) 0)

/-- JS `~a & 0xff`: the complement of the low 8 bits of `a`. -/
def notLow8 (a : Nat) : Nat := 255 - a % 256

/-- `ModbusSlave.handleFC1` (part_000 lines 207-238). -/
def handleFC1 (model : SlaveModel) (frame : Frame) : SlaveResult :=
  if frame.data.length == 4 then
    match model.readCoils with
    | some readCoils =>
      let address := readUInt16BE frame.data 0
      let length := readUInt16BE frame.data 2
      if 1 ≤ length ∧ length ≤ 0x07d0 then
        if checkRange [(address : Int), (address : Int) + (length : Int)]
            (rangeOf model (·.coils)) then
          match readCoils address length with
          | .ok coils =>
            let bufferTx := packBits coils ((length + 7) / 8)
            { response := some (normalResponse frame (bufferTx.length :: bufferTx)) }
          | .error e => { response := some (responseError frame e) }
        else { response := some (responseError frame (getErrorByCode 2)) }
      else { response := some (responseError frame (getErrorByCode 3)) }
    | none => { response := some (responseError frame (getErrorByCode 1)) }
  else {}

/-- `ModbusSlave.handleFC2` (part_000 lines 240-271). -/
def handleFC2 (model : SlaveModel) (frame : Frame) : SlaveResult :=
  if frame.data.length == 4 then
    match model.readDiscreteInputs with
    | some readDiscreteInputs =>
      let address := readUInt16BE frame.data 0
      let length := readUInt16BE frame.data 2
      if 1 ≤ length ∧ length ≤ 0x07d0 then
        if checkRange [(address : Int), (address : Int) + (length : Int)]
            (rangeOf model (·.discreteInputs)) then
          match readDiscreteInputs address length with
          | .ok bits =>
            let bufferTx := packBits bits ((length + 7) / 8)
            { response := some (normalResponse frame (bufferTx.length :: bufferTx)) }
          | .error e => { response := some (responseError frame e) }
        else { response := some (responseError frame (getErrorByCode 2)) }
      else { response := some (responseError frame (getErrorByCode 3)) }
    | none => { response := some (responseError frame (getErrorByCode 1)) }
  else {}

/-- `ModbusSlave.handleFC3` (part_000 lines 273-302). -/
def handleFC3 (model : SlaveModel) (frame : Frame) : SlaveResult :=
  if frame.data.length == 4 then
    match model.readHoldingRegisters with
    | some readHoldingRegisters =>
      let address := readUInt16BE frame.data 0
      let length := readUInt16BE frame.data 2
      if 1 ≤ length ∧ length ≤ 0x007d then
        if checkRange [(address : Int), (address : Int) + (length : Int)]
            (rangeOf model (·.holdingRegisters)) then
          match readHoldingRegisters address length with
          | .ok registers =>
            let bufferTx := regsToBytes registers length
            { response := some (normalResponse frame (bufferTx.length :: bufferTx)) }
          | .error e => { response := some (responseError frame e) }
        else { response := some (responseError frame (getErrorByCode 2)) }
      else { response := some (responseError frame (getErrorByCode 3)) }
    | none => { response := some (responseError frame (getErrorByCode 1)) }
  else {}

/-- `ModbusSlave.handleFC4` (part_000 lines 304-333). -/
def handleFC4 (model : SlaveModel) (frame : Frame) : SlaveResult :=
  if frame.data.length == 4 then
    match model.readInputRegisters with
    | some readInputRegisters =>
      let address := readUInt16BE frame.data 0
      let length := readUInt16BE frame.data 2
      if 1 ≤ length ∧ length ≤ 0x007d then
        if checkRange [(address : Int), (address : Int) + (length : Int)]
            (rangeOf model (·.inputRegisters)) then
          match readInputRegisters address length with
          | .ok registers =>
            let bufferTx := regsToBytes registers length
            { response := some (normalResponse frame (bufferTx.length :: bufferTx)) }
          | .error e => { response := some (responseError frame e) }
        else { response := some (responseError frame (getErrorByCode 2)) }
      else { response := some (responseError frame (getErrorByCode 3)) }
    | none => { response := some (responseError frame (getErrorByCode 1)) }
  else {}

/-- `ModbusSlave.handleFC5` (part_000 lines 335-360). -/
def handleFC5 (model : SlaveModel) (frame : Frame) : SlaveResult :=
  if frame.data.length == 4 then
    match model.writeSingleCoil with
    | some writeSingleCoil =>
      let address := readUInt16BE frame.data 0
      let value := readUInt16BE frame.data 2
      if value == 0x0000 ∨ value == 0xff00 then
        if checkRange [(address : Int)] (rangeOf model (·.coils)) then
          match writeSingleCoil address (value == 0xff00) with
          | .ok _ =>
            { response := some (normalResponse frame frame.data)
              coilWrites := [(address, value == 0xff00)] }
          | .error e =>
            { response := some (responseError frame e)
              coilWrites := [(address, value == 0xff00)] }
        else { response := some (responseError frame (getErrorByCode 2)) }
      else { response := some (responseError frame (getErrorByCode 3)) }
    | none => { response := some (responseError frame (getErrorByCode 1)) }
  else {}

/-- `ModbusSlave.handleFC6` (part_000 lines 362-387). -/
def handleFC6 (model : SlaveModel) (frame : Frame) : SlaveResult :=
  if frame.data.length == 4 then
    match model.writeSingleRegister with
    | some writeSingleRegister =>
      let address := readUInt16BE frame.data 0
      let value := readUInt16BE frame.data 2
      if value ≤ 0xffff then
        if checkRange [(address : Int)] (rangeOf model (·.holdingRegisters)) then
          match writeSingleRegister address value with
          | .ok _ =>
            { response := some (normalResponse frame frame.data)
              regWrites := [(address, value)] }
          | .error e =>
            { response := some (responseError frame e)
              regWrites := [(address, value)] }
        else { response := some (responseError frame (getErrorByCode 2)) }
      else { response := some (responseError frame (getErrorByCode 3)) }
    | none => { response := some (responseError frame (getErrorByCode 1)) }
  else {}

/-- `Promise.all` over synchronously-settled element writes rejects with the
first rejection in index order. -/
def firstError : List (Except (List Char) Unit) → Option (List Char)
  | [] => none
  | .ok _ :: rest => firstError rest
  | .error e :: _ => some e

/-- `ModbusSlave.handleFC15` (part_000 lines 389-420). -/
def handleFC15 (model : SlaveModel) (frame : Frame) : SlaveResult :=
  if frame.data.length > 5 ∧ frame.data.length == 5 + frame.data.getD 4 0 then
    if model.writeMultipleCoils.isSome || model.writeSingleCoil.isSome then
      let address := readUInt16BE frame.data 0
      let length := readUInt16BE frame.data 2
      let byteCount := frame.data.getD 4 0
      if 1 ≤ length ∧ length ≤ 0x07b0 ∧ byteCount == (length + 7) / 8 then
        if checkRange [(address : Int), (address : Int) + (length : Int)]
            (rangeOf model (·.coils)) then
          let value := (List.range length).map
            (fun index => decide ((frame.data.getD (5 + index / 8) 0 &&& (1 <<< (index % 8))) > 0))
          match model.writeMultipleCoils with
          | some writeMultipleCoils =>
            match writeMultipleCoils address value with
            | .ok _ => { response := some (normalResponse frame (frame.data.take 4)) }
            | .error e => { response := some (responseError frame e) }
          | none =>
            match model.writeSingleCoil with
            | some writeSingleCoil =>
              let writes := value.enum.map (fun p => (address + p.1, p.2))
              match firstError (value.enum.map (fun p => writeSingleCoil (address + p.1) p.2)) with
              | none =>
                { response := some (normalResponse frame (frame.data.take 4))
                  coilWrites := writes }
              | some e =>
                { response := some (responseError frame e)
                  coilWrites := writes }
            | none => {}
        else { response := some (responseError frame (getErrorByCode 2)) }
      else { response := some (responseError frame (getErrorByCode 3)) }
    else { response := some (responseError frame (getErrorByCode 1)) }
  else {}

/-- `ModbusSlave.handleFC16` (part_000 lines 422-453). -/
def handleFC16 (model : SlaveModel) (frame : Frame) : SlaveResult :=
  if frame.data.length > 5 ∧ frame.data.length == 5 + frame.data.getD 4 0 then
    if model.writeMultipleRegisters.isSome || model.writeSingleRegister.isSome then
      let address := readUInt16BE frame.data 0
      let length := readUInt16BE frame.data 2
      let byteCount := frame.data.getD 4 0
      if 1 ≤ length ∧ length ≤ 0x007b ∧ byteCount == length * 2 then
        if checkRange [(address : Int), (address : Int) + (length : Int)]
            (rangeOf model (·.holdingRegisters)) then
          let value := (List.range length).map
            (fun index => readUInt16BE frame.data (5 + index * 2))
          match model.writeMultipleRegisters with
          | some writeMultipleRegisters =>
            match writeMultipleRegisters address value with
            | .ok _ => { response := some (normalResponse frame (frame.data.take 4)) }
            | .error e => { response := some (responseError frame e) }
          | none =>
            match model.writeSingleRegister with
            | some writeSingleRegister =>
              let writes := value.enum.map (fun p => (address + p.1, p.2))
              match firstError (value.enum.map
                  (fun p => writeSingleRegister (address + p.1) p.2)) with
              | none =>
                { response := some (normalResponse frame (frame.data.take 4))
                  regWrites := writes }
              | some e =>
                { response := some (responseError frame e)
                  regWrites := writes }
            | none => {}
        else { response := some (responseError frame (getErrorByCode 2)) }
      else { response := some (responseError frame (getErrorByCode 3)) }
    else { response := some (responseError frame (getErrorByCode 1)) }
  else {}

/-- `ModbusSlave.handleFC17` (part_000 lines 455-474). -/
def handleFC17 (model : SlaveModel) (frame : Frame) : SlaveResult :=
  if frame.data.length == 0 then
    match model.reportServerId with
    | some reportServerId =>
      match reportServerId () with
      | .ok sid =>
        let serverId := sid.serverId.getD (model.unit.getD 1)
        let runIndicatorStatus := sid.runIndicatorStatus.getD true
        let additionalData := sid.additionalData.getD []
        { response := some (normalResponse frame
            ([2 + additionalData.length, serverId,
              if runIndicatorStatus then 0xff else 0x00] ++ additionalData)) }
      | .error e => { response := some (responseError frame e) }
    | none => { response := some (responseError frame (getErrorByCode 1)) }
  else {}

/-- `ModbusSlave.handleFC22` (part_000 lines 476-504).  The fallback path
reads the current value and writes
`(value & andMask) | (orMask & (~andMask & 0xff))` — note the 8-bit
truncation of the complemented mask in the source. -/
def handleFC22 (model : SlaveModel) (frame : Frame) : SlaveResult :=
  if frame.data.length == 6 then
    if model.maskWriteRegister.isSome
        || (model.readHoldingRegisters.isSome && model.writeSingleRegister.isSome) then
      let address := readUInt16BE frame.data 0
      let andMask := readUInt16BE frame.data 2
      let orMask := readUInt16BE frame.data 4
      if checkRange [(address : Int)] (rangeOf model (·.holdingRegisters)) then
        match model.maskWriteRegister with
        | some maskWriteRegister =>
          match maskWriteRegister address andMask orMask with
          | .ok _ => { response := some (normalResponse frame frame.data) }
          | .error e => { response := some (responseError frame e) }
        | none =>
          match model.readHoldingRegisters, model.writeSingleRegister with
          | some readHoldingRegisters, some writeSingleRegister =>
            match readHoldingRegisters address 1 with
            | .ok vs =>
              let value := vs.getD 0 0
              let written := (value &&& andMask) ||| (orMask &&& notLow8 andMask)
              match writeSingleRegister address written with
              | .ok _ =>
                { response := some (normalResponse frame frame.data)
                  regWrites := [(address, written)] }
              | .error e =>
                { response := some (responseError frame e)
                  regWrites := [(address, written)] }
            | .error e => { response := some (responseError frame e) }
          | _, _ => {}
      else { response := some (responseError frame (getErrorByCode 2)) }
    else { response := some (responseError frame (getErrorByCode 1)) }
  else {}

/-- `ModbusSlave.handleFC23` (part_000 lines 506-559). -/
def handleFC23 (model : SlaveModel) (frame : Frame) : SlaveResult :=
  if frame.data.length > 9 ∧ frame.data.length == 9 + frame.data.getD 8 0 then
    if model.readHoldingRegisters.isSome
        && (model.writeMultipleRegisters.isSome || model.writeSingleRegister.isSome) then
      let addressRead := readUInt16BE frame.data 0
      let lengthRead := readUInt16BE frame.data 2
      let addressWrite := readUInt16BE frame.data 4
      let lengthWrite := readUInt16BE frame.data 6
      let byteCount := frame.data.getD 8 0
      if 1 ≤ lengthRead ∧ lengthRead ≤ 0x007d ∧ 1 ≤ lengthWrite ∧ lengthWrite ≤ 0x0079
          ∧ byteCount == lengthWrite * 2 then
        if checkRange
            [(addressRead : Int), (addressRead : Int) + (lengthRead : Int),
             (addressWrite : Int), (addressWrite : Int) + (lengthWrite : Int)]
            (rangeOf model (·.holdingRegisters)) then
          let value := (List.range lengthWrite).map
            (fun index => readUInt16BE frame.data (9 + index * 2))
          let writeStep : Option (List Char) × List (Nat × Nat) :=
            match model.writeMultipleRegisters with
            | some writeMultipleRegisters =>
              (match writeMultipleRegisters addressWrite value with
               | .ok _ => none
               | .error e => some e, [])
            | none =>
              match model.writeSingleRegister with
              | some writeSingleRegister =>
                (firstError (value.enum.map
                   (fun p => writeSingleRegister (addressWrite + p.1) p.2)),
                 value.enum.map (fun p => (addressWrite + p.1, p.2)))
              | none => (none, [])
          match writeStep.1 with
          | some e =>
            { response := some (responseError frame e), regWrites := writeStep.2 }
          | none =>
            match model.readHoldingRegisters with
            | some readHoldingRegisters =>
              match readHoldingRegisters addressRead lengthRead with
              | .ok registers =>
                let bufferTx := regsToBytes registers lengthRead
                { response := some (normalResponse frame (bufferTx.length :: bufferTx))
                  regWrites := writeStep.2 }
              | .error e =>
                { response := some (responseError frame e), regWrites := writeStep.2 }
            | none => { regWrites := writeStep.2 }
        else { response := some (responseError frame (getErrorByCode 2)) }
      else { response := some (responseError frame (getErrorByCode 3)) }
    else { response := some (responseError frame (getErrorByCode 1)) }
  else {}

/-- The byte string `'null'` used to seed device-identification objects. -/
def nullBytes : List Nat := [110, 117, 108, 108]

/-- `Map.set` semantics on an insertion-ordered association list: update in
place when the key exists, else append. -/
def mapSet (l : List (Nat × List Nat)) (k : Nat) (v : List Nat) : List (Nat × List Nat) :=
  if l.any (fun p => p.1 == k) then l.map (fun p => if p.1 == k then (k, v) else p)
  else l ++ [(k, v)]

/-- handleFC43_14 step 1-2: seed object ids 0-2 with `'null'`, then merge the
caller's identification entries whose ids lie in 0..255 (entries stand for
`Object.entries` of the returned record). -/
def buildObjects (ident : List (Nat × List Nat)) : List (Nat × List Nat) :=
  ident.foldl (fun acc p => if p.1 ≤ 255 then mapSet acc p.1 p.2 else acc)
    [(0, nullBytes), (1, nullBytes), (2, nullBytes)]

/-- The mutable locals of the handleFC43_14 object walk. -/
structure DevIdWalk where
  ids : List Nat := []
  totalLength : Int := 10
  lastID : Nat := 0
  conformityLevel : Nat := 0x81
deriving Repr, DecidableEq

/-- The object walk of handleFC43_14 (part_000 lines 631-669); the error
value is the exception code of an early `responseError` return. -/
def devIdWalk (objectID readDeviceIDCode : Nat) :
    List (Nat × List Nat) → DevIdWalk → Except Nat DevIdWalk
  | [], st => .ok st
  | (id, value) :: rest, st =>
    if (0x07 ≤ id ∧ id ≤ 0x7f) ∨ id > 0xff then .error 4
    else
      let st1 := { st with conformityLevel :=
        if id > 0x80 then 0x83 else if id > 0x02 then 0x82 else st.conformityLevel }
      if objectID > id then devIdWalk objectID readDeviceIDCode rest st1
      else if value.length > 245 then .error 4
      else if st1.lastID ≠ 0 then devIdWalk objectID readDeviceIDCode rest st1
      else if (value.length : Int) + 2 > 253 - st1.totalLength then
        devIdWalk objectID readDeviceIDCode rest { st1 with lastID := id }
      else
        let st2 := { st1 with
          totalLength := st1.totalLength + value.length + 2
          ids := st1.ids ++ [id] }
        if readDeviceIDCode == 4 then .ok st2
        else devIdWalk objectID readDeviceIDCode rest st2

/-- The tail of handleFC43_14 after the readCode/objectId validation:
invoke the callback, build the object set, clamp or reject an absent
objectId, walk, sort, and encode. -/
def handleFC43Body (frame : Frame)
    (readDeviceIdentification : Unit → Except (List Char) (List (Nat × List Nat)))
    (readDeviceIDCode objectID : Nat) : SlaveResult :=
  match readDeviceIdentification () with
  | .ok ident =>
    let objects := buildObjects ident
    if ¬ (objects.any (fun p => p.1 == objectID)) ∧ readDeviceIDCode == 4 then
      { response := some (responseError frame (getErrorByCode 2)) }
    else
      let objectID := if objects.any (fun p => p.1 == objectID) then objectID else 0
      match devIdWalk objectID readDeviceIDCode objects {} with
      | .error c => { response := some (responseError frame (getErrorByCode c)) }
      | .ok st =>
        let ids := st.ids.mergeSort (fun a b => a ≤ b)
        { response := some (normalResponse frame
            ([0x0e, readDeviceIDCode, st.conformityLevel,
              if st.lastID == 0 then 0x00 else 0xff, st.lastID, ids.length]
             ++ (ids.map (fun id =>
                  match objects.find? (fun p => p.1 == id) with
                  | some p => id :: p.2.length :: p.2
                  | none => [id, 0])).flatten)) }
  | .error e => { response := some (responseError frame e) }

/-- `ModbusSlave.handleFC43_14` (part_000 lines 561-693). -/
def handleFC43_14 (model : SlaveModel) (frame : Frame) : SlaveResult :=
  if frame.data.length == 3 then
    match model.readDeviceIdentification with
    | some readDeviceIdentification =>
      if frame.data.getD 0 0 == 0x0e then
        let readDeviceIDCode := frame.data.getD 1 0
        let objectID := frame.data.getD 2 0
        if readDeviceIDCode == 0x01 then
          handleFC43Body frame readDeviceIdentification readDeviceIDCode
            (if objectID > 0x02 ∨ (objectID > 0x06 ∧ objectID < 0x80) then 0 else objectID)
        else if readDeviceIDCode == 0x02 then
          handleFC43Body frame readDeviceIdentification readDeviceIDCode
            (if objectID ≥ 0x80 ∨ (objectID > 0x06 ∧ objectID < 0x80) then 0 else objectID)
        else if readDeviceIDCode == 0x03 then
          handleFC43Body frame readDeviceIdentification readDeviceIDCode
            (if objectID > 0x06 ∧ objectID < 0x80 then 0 else objectID)
        else if readDeviceIDCode == 0x04 then
          if objectID > 0x06 ∧ objectID < 0x80 then
            { response := some (responseError frame (getErrorByCode 2)) }
          else handleFC43Body frame readDeviceIdentification readDeviceIDCode objectID
        else { response := some (responseError frame (getErrorByCode 3)) }
      else { response := some (responseError frame (getErrorByCode 1)) }
    | none => { response := some (responseError frame (getErrorByCode 1)) }
  else {}

/-- The FC switch of the framing handler (part_000 lines 122-189). -/
def handleFC (model : SlaveModel) (frame : Frame) : SlaveResult :=
  if frame.fc == 0x01 then handleFC1 model frame
  else if frame.fc == 0x02 then handleFC2 model frame
  else if frame.fc == 0x03 then handleFC3 model frame
  else if frame.fc == 0x04 then handleFC4 model frame
  else if frame.fc == 0x05 then handleFC5 model frame
  else if frame.fc == 0x06 then handleFC6 model frame
  else if frame.fc == 0x0f then handleFC15 model frame
  else if frame.fc == 0x10 then handleFC16 model frame
  else if frame.fc == 0x11 then handleFC17 model frame
  else if frame.fc == 0x16 then handleFC22 model frame
  else if frame.fc == 0x17 then handleFC23 model frame
  else if frame.fc == 0x2b then handleFC43_14 model frame
  else { response := some (responseError frame (getErrorByCode 1)) }

/-- The interceptor stage followed by the FC switch (part_000 lines
107-120, 191-197): an interceptor yielding a payload answers directly, a
throwing interceptor synthesizes an exception, otherwise dispatch by FC. -/
def dispatchModel (model : SlaveModel) (frame : Frame) : SlaveResult :=
  match model.interceptor with
  | some interceptor =>
    match interceptor frame.fc frame.data with
    | .ok (some data) => { response := some (normalResponse frame data) }
    | .ok none => handleFC model frame
    | .error e => { response := some (responseError frame e) }
  | none => handleFC model frame

/-- The broadcast-suppressing reply closure (part_000 lines 98-105): for
`unit == 0` nothing is forwarded to the transport. -/
def respondWrites (frameUnit : Nat) (encoded : List Nat) : List (List Nat) :=
  if frameUnit == 0 then [] else [encoded]

/-- The complete framing handler of the server (part_000 lines 93-198):
select target models (all of them for broadcast, the registered one
otherwise, none when unregistered), dispatch, and collect every byte buffer
handed to the transport reply closure. -/
def slaveTransportWrites (enc : Adu → List Nat) (models : List (Nat × SlaveModel))
    (frame : Frame) : List (List Nat) :=
  if frame.unit == 0 ∨ models.any (fun p => p.1 == frame.unit) then
    let targets :=
      if frame.unit == 0 then models.map (fun p => p.2)
      else
        match models.find? (fun p => p.1 == frame.unit) with
        | some p => [p.2]
        | none => []
    (targets.map (fun m =>
      match (dispatchModel m frame).response with
      | some resp => respondWrites frame.unit (enc resp)
      | none => [])).flatten
  else []

/-- Outcome of `ModbusMaster.waitResponse` (part_001) up to the point where
either the promise settles or a response-wait is registered. -/
inductive ClientWaitAction where
  | resolveImmediately
  | rejectWriteError
  | registerWait
deriving Repr, DecidableEq

/-- `ModbusMaster.waitResponse` (part_001): after a successful transport
write, a broadcast request resolves at once; a unicast request arms the
timer and registers the response-wait; a failed write rejects. -/
def waitResponse (broadcast writeOk : Bool) : ClientWaitAction :=
  if writeOk then
    if broadcast then .resolveImmediately else .registerWait
  else .rejectWriteError

/-- Whether the action registered a response-wait
(`startWaitingResponse` was called). -/
def registersWait : ClientWaitAction → Bool
  | .registerWait => true
  | _ => false

/-- C3: broadcast suppression.  Server side: for every frame with unit 0,
whatever the models and handlers do, no byte buffer is ever handed to the
transport reply closure.  Client side: a broadcast request resolves as soon
as the write completes, and no response-wait is ever registered for a
broadcast. -/
theorem c3_broadcast_suppression :
    (∀ (enc : Adu → List Nat) (models : List (Nat × SlaveModel)) (frame : Frame),
      frame.unit = 0 → slaveTransportWrites enc models frame = [])
    ∧ waitResponse true true = .resolveImmediately
    ∧ (∀ w : Bool, registersWait (waitResponse true w) = false) := by
  refine ⟨?_, rfl, ?_⟩
  · intro enc models frame h0
    rw [slaveTransportWrites, if_pos (Or.inl (by simp [h0]))]
    rw [List.flatten_eq_nil_iff]
    intro l hl
    rw [List.mem_map] at hl
    obtain ⟨m, _, rfl⟩ := hl
    cases hresp : (dispatchModel m frame).response with
    | none => rfl
    | some resp => simp [respondWrites, h0]
  · intro w
    cases w <;> rfl

/-- C3 witness: a concrete broadcast frame against one registered model
produces no writes; the client action for a broadcast resolves immediately
and registers no wait. -/
theorem c3_broadcast_suppression_witness :
    slaveTransportWrites (fun a => a.data) [(1, {})] ⟨⟨none, 0, 3, [0, 0, 0, 1]⟩, []⟩ = []
    ∧ waitResponse true true = .resolveImmediately
    ∧ registersWait (waitResponse true true) = false :=
  ⟨c3_broadcast_suppression.1 (fun a => a.data) [(1, {})] ⟨⟨none, 0, 3, [0, 0, 0, 1]⟩, []⟩ rfl,
   c3_broadcast_suppression.2.1,
   c3_broadcast_suppression.2.2 true⟩

theorem getCode_getError_one : getCodeByError (getErrorByCode 1) = some 1 := by decide

theorem getCode_getError_two : getCodeByError (getErrorByCode 2) = some 2 := by decide

theorem getCode_getError_three : getCodeByError (getErrorByCode 3) = some 3 := by decide

theorem responseError_illegalFunction (frame : Frame) :
    responseError frame (getErrorByCode 1) = exceptionAdu frame 1 := by
  rw [responseError, getCode_getError_one]
  rfl

theorem responseError_illegalDataAddress (frame : Frame) :
    responseError frame (getErrorByCode 2) = exceptionAdu frame 2 := by
  rw [responseError, getCode_getError_two]
  rfl

theorem responseError_illegalDataValue (frame : Frame) :
    responseError frame (getErrorByCode 3) = exceptionAdu frame 3 := by
  rw [responseError, getCode_getError_three]
  rfl

/-- The ILLEGAL_FUNCTION exception result: request fc with the high bit set,
payload exactly the byte 0x01, unit and transaction preserved. -/
def illegalFunctionResponse (frame : Frame) : SlaveResult :=
  { response := some { transaction := frame.transaction
                       unit := frame.unit
                       fc := frame.fc ||| 0x80
                       data := [1] } }

/-- C4: for every well-formed request whose function code the dispatched
model does not implement — the required callback is absent, or the fc is
not one of the twelve supported — the dispatcher answers with an exception
ADU: fc = request fc with the high bit set, payload exactly the single byte
ILLEGAL_FUNCTION (0x01), unit and transaction preserved. -/
theorem c4_unimplemented_illegal_function :
    (∀ (m : SlaveModel) (frame : Frame), frame.fc = 0x01 → frame.data.length = 4 →
      m.readCoils = none → handleFC m frame = illegalFunctionResponse frame)
    ∧ (∀ (m : SlaveModel) (frame : Frame), frame.fc = 0x02 → frame.data.length = 4 →
      m.readDiscreteInputs = none → handleFC m frame = illegalFunctionResponse frame)
    ∧ (∀ (m : SlaveModel) (frame : Frame), frame.fc = 0x03 → frame.data.length = 4 →
      m.readHoldingRegisters = none → handleFC m frame = illegalFunctionResponse frame)
    ∧ (∀ (m : SlaveModel) (frame : Frame), frame.fc = 0x04 → frame.data.length = 4 →
      m.readInputRegisters = none → handleFC m frame = illegalFunctionResponse frame)
    ∧ (∀ (m : SlaveModel) (frame : Frame), frame.fc = 0x05 → frame.data.length = 4 →
      m.writeSingleCoil = none → handleFC m frame = illegalFunctionResponse frame)
    ∧ (∀ (m : SlaveModel) (frame : Frame), frame.fc = 0x06 → frame.data.length = 4 →
      m.writeSingleRegister = none → handleFC m frame = illegalFunctionResponse frame)
    ∧ (∀ (m : SlaveModel) (frame : Frame), frame.fc = 0x0f →
      frame.data.length > 5 → frame.data.length = 5 + frame.data.getD 4 0 →
      m.writeMultipleCoils = none → m.writeSingleCoil = none →
      handleFC m frame = illegalFunctionResponse frame)
    ∧ (∀ (m : SlaveModel) (frame : Frame), frame.fc = 0x10 →
      frame.data.length > 5 → frame.data.length = 5 + frame.data.getD 4 0 →
      m.writeMultipleRegisters = none → m.writeSingleRegister = none →
      handleFC m frame = illegalFunctionResponse frame)
    ∧ (∀ (m : SlaveModel) (frame : Frame), frame.fc = 0x11 → frame.data.length = 0 →
      m.reportServerId = none → handleFC m frame = illegalFunctionResponse frame)
    ∧ (∀ (m : SlaveModel) (frame : Frame), frame.fc = 0x16 → frame.data.length = 6 →
      m.maskWriteRegister = none →
      (m.readHoldingRegisters = none ∨ m.writeSingleRegister = none) →
      handleFC m frame = illegalFunctionResponse frame)
    ∧ (∀ (m : SlaveModel) (frame : Frame), frame.fc = 0x17 →
      frame.data.length > 9 → frame.data.length = 9 + frame.data.getD 8 0 →
      (m.readHoldingRegisters = none
        ∨ (m.writeMultipleRegisters = none ∧ m.writeSingleRegister = none)) →
      handleFC m frame = illegalFunctionResponse frame)
    ∧ (∀ (m : SlaveModel) (frame : Frame), frame.fc = 0x2b → frame.data.length = 3 →
      frame.data.getD 0 0 = 0x0e → m.readDeviceIdentification = none →
      handleFC m frame = illegalFunctionResponse frame)
    ∧ (∀ (m : SlaveModel) (frame : Frame),
      frame.fc ∉ ([0x01, 0x02, 0x03, 0x04, 0x05, 0x06,
                   0x0f, 0x10, 0x11, 0x16, 0x17, 0x2b] : List Nat) →
      handleFC m frame = illegalFunctionResponse frame) := by
  refine ⟨?_, ?_, ?_, ?_, ?_, ?_, ?_, ?_, ?_, ?_, ?_, ?_, ?_⟩
  · intro m frame hfc hlen hcb
    rw [handleFC, if_pos (by simp [hfc]), handleFC1, if_pos (by simp [hlen]), hcb,
      responseError_illegalFunction]
    rfl
  · intro m frame hfc hlen hcb
    rw [handleFC, if_neg (by simp [hfc]), if_pos (by simp [hfc]), handleFC2,
      if_pos (by simp [hlen]), hcb, responseError_illegalFunction]
    rfl
  · intro m frame hfc hlen hcb
    rw [handleFC, if_neg (by simp [hfc]), if_neg (by simp [hfc]), if_pos (by simp [hfc]),
      handleFC3, if_pos (by simp [hlen]), hcb, responseError_illegalFunction]
    rfl
  · intro m frame hfc hlen hcb
    rw [handleFC, if_neg (by simp [hfc]), if_neg (by simp [hfc]), if_neg (by simp [hfc]),
      if_pos (by simp [hfc]), handleFC4, if_pos (by simp [hlen]), hcb,
      responseError_illegalFunction]
    rfl
  · intro m frame hfc hlen hcb
    rw [handleFC, if_neg (by simp [hfc]), if_neg (by simp [hfc]), if_neg (by simp [hfc]),
      if_neg (by simp [hfc]), if_pos (by simp [hfc]), handleFC5, if_pos (by simp [hlen]),
      hcb, responseError_illegalFunction]
    rfl
  · intro m frame hfc hlen hcb
    rw [handleFC, if_neg (by simp [hfc]), if_neg (by simp [hfc]), if_neg (by simp [hfc]),
      if_neg (by simp [hfc]), if_neg (by simp [hfc]), if_pos (by simp [hfc]), handleFC6,
      if_pos (by simp [hlen]), hcb, responseError_illegalFunction]
    rfl
  · intro m frame hfc hlen1 hlen2 hmc hsc
    rw [handleFC, if_neg (by simp [hfc]), if_neg (by simp [hfc]), if_neg (by simp [hfc]),
      if_neg (by simp [hfc]), if_neg (by simp [hfc]), if_neg (by simp [hfc]),
      if_pos (by simp [hfc]), handleFC15,
      if_pos ⟨hlen1, by simp [hlen2]⟩, if_neg (by simp [hmc, hsc]),
      responseError_illegalFunction]
    rfl
  · intro m frame hfc hlen1 hlen2 hmr hsr
    rw [handleFC, if_neg (by simp [hfc]), if_neg (by simp [hfc]), if_neg (by simp [hfc]),
      if_neg (by simp [hfc]), if_neg (by simp [hfc]), if_neg (by simp [hfc]),
      if_neg (by simp [hfc]), if_pos (by simp [hfc]), handleFC16,
      if_pos ⟨hlen1, by simp [hlen2]⟩, if_neg (by simp [hmr, hsr]),
      responseError_illegalFunction]
    rfl
  · intro m frame hfc hlen hcb
    rw [handleFC, if_neg (by simp [hfc]), if_neg (by simp [hfc]), if_neg (by simp [hfc]),
      if_neg (by simp [hfc]), if_neg (by simp [hfc]), if_neg (by simp [hfc]),
      if_neg (by simp [hfc]), if_neg (by simp [hfc]), if_pos (by simp [hfc]), handleFC17,
      if_pos (by simp [hlen]), hcb, responseError_illegalFunction]
    rfl
  · intro m frame hfc hlen hmask hrw
    rw [handleFC, if_neg (by simp [hfc]), if_neg (by simp [hfc]), if_neg (by simp [hfc]),
      if_neg (by simp [hfc]), if_neg (by simp [hfc]), if_neg (by simp [hfc]),
      if_neg (by simp [hfc]), if_neg (by simp [hfc]), if_neg (by simp [hfc]),
      if_pos (by simp [hfc]), handleFC22, if_pos (by simp [hlen]),
      if_neg (by rcases hrw with h | h <;> simp [hmask, h]),
      responseError_illegalFunction]
    rfl
  · intro m frame hfc hlen1 hlen2 himpl
    rw [handleFC, if_neg (by simp [hfc]), if_neg (by simp [hfc]), if_neg (by simp [hfc]),
      if_neg (by simp [hfc]), if_neg (by simp [hfc]), if_neg (by simp [hfc]),
      if_neg (by simp [hfc]), if_neg (by simp [hfc]), if_neg (by simp [hfc]),
      if_neg (by simp [hfc]), if_pos (by simp [hfc]), handleFC23,
      if_pos ⟨hlen1, by simp [hlen2]⟩,
      if_neg (by
        rcases himpl with h | hpair
        · simp [h]
        · simp [hpair.1, hpair.2]),
      responseError_illegalFunction]
    rfl
  · intro m frame hfc hlen _ hcb
    rw [handleFC, if_neg (by simp [hfc]), if_neg (by simp [hfc]), if_neg (by simp [hfc]),
      if_neg (by simp [hfc]), if_neg (by simp [hfc]), if_neg (by simp [hfc]),
      if_neg (by simp [hfc]), if_neg (by simp [hfc]), if_neg (by simp [hfc]),
      if_neg (by simp [hfc]), if_neg (by simp [hfc]), if_pos (by simp [hfc]),
      handleFC43_14, if_pos (by simp [hlen]), hcb, responseError_illegalFunction]
    rfl
  · intro m frame hfc
    simp only [List.mem_cons, List.not_mem_nil, or_false, not_or] at hfc
    obtain ⟨g1, g2, g3, g4, g5, g6, g7, g8, g9, g10, g11, g12⟩ := hfc
    rw [handleFC, if_neg (by simp [g1]), if_neg (by simp [g2]), if_neg (by simp [g3]),
      if_neg (by simp [g4]), if_neg (by simp [g5]), if_neg (by simp [g6]),
      if_neg (by simp [g7]), if_neg (by simp [g8]), if_neg (by simp [g9]),
      if_neg (by simp [g10]), if_neg (by simp [g11]), if_neg (by simp [g12]),
      responseError_illegalFunction]
    rfl

/-- C4 witness: a model implementing only `readCoils` receives an FC3
request (spec scenario 4) and an fc 0x63 request; both answer
`fc | 0x80` with payload `[0x01]`. -/
theorem c4_unimplemented_illegal_function_witness :
    handleFC { readCoils := some (fun _ _ => .ok []) } ⟨⟨none, 1, 3, [0, 0, 0, 1]⟩, []⟩
      = illegalFunctionResponse ⟨⟨none, 1, 3, [0, 0, 0, 1]⟩, []⟩
    ∧ handleFC { readCoils := some (fun _ _ => .ok []) } ⟨⟨none, 1, 0x63, []⟩, []⟩
      = illegalFunctionResponse ⟨⟨none, 1, 0x63, []⟩, []⟩ :=
  ⟨c4_unimplemented_illegal_function.2.2.1 { readCoils := some (fun _ _ => .ok []) }
      ⟨⟨none, 1, 3, [0, 0, 0, 1]⟩, []⟩ rfl rfl rfl,
   c4_unimplemented_illegal_function.2.2.2.2.2.2.2.2.2.2.2.2
      { readCoils := some (fun _ _ => .ok []) } ⟨⟨none, 1, 0x63, []⟩, []⟩ (by decide)⟩

theorem getD_set_self (l : List Nat) (i a : Nat) (h : i < l.length) :
    (l.set i a).getD i 0 = a := by
  rw [List.getD_eq_getElem?_getD, List.getElem?_set_self h]
  rfl

theorem getD_set_ne (l : List Nat) (i j a : Nat) (h : i ≠ j) :
    (l.set i a).getD j 0 = l.getD j 0 := by
  rw [List.getD_eq_getElem?_getD, List.getElem?_set_ne h, ← List.getD_eq_getElem?_getD]

theorem packLoop_length (cs : List Bool) (i : Nat) (buf : List Nat) :
    (packLoop cs i buf).length = buf.length := by
  induction cs generalizing i buf with
  | nil => rfl
  | cons c rest ih =>
      rw [packLoop, ih]
      split
      · rw [List.length_set]
      · rfl

theorem packLoop_testBit (cs : List Bool) (i : Nat) (buf : List Nat) (j k : Nat)
    (hk : k < 8) (hj : j < buf.length) :
    (((packLoop cs i buf).getD j 0).testBit k = true ↔
      ((buf.getD j 0).testBit k = true ∨
       ∃ mi, mi < cs.length ∧ cs.getD mi false = true ∧ i + mi = 8 * j + k)) := by
  induction cs generalizing i buf with
  | nil =>
      rw [packLoop]
      simp
  | cons c rest ih =>
      rw [packLoop]
      have hlen2 : (if c then buf.set (i / 8) ((buf.getD (i / 8) 0) ||| (1 <<< (i % 8)))
          else buf).length = buf.length := by
        split
        · rw [List.length_set]
        · rfl
      rw [ih (i + 1) _ (hlen2 ▸ hj)]
      have hsplit : (∃ mi, mi < (c :: rest).length ∧ (c :: rest).getD mi false = true
          ∧ i + mi = 8 * j + k)
          ↔ ((c = true ∧ i = 8 * j + k)
             ∨ ∃ mi, mi < rest.length ∧ rest.getD mi false = true ∧ (i + 1) + mi = 8 * j + k) := by
        constructor
        · rintro ⟨mi, hm1, hm2, hm3⟩
          cases mi with
          | zero => exact Or.inl ⟨by simpa using hm2, by omega⟩
          | succ mi =>
              refine Or.inr ⟨mi, by simpa using hm1, by simpa using hm2, by omega⟩
        · rintro (⟨hc, hi⟩ | ⟨mi, hm1, hm2, hm3⟩)
          · exact ⟨0, by simp, by simpa using hc, by omega⟩
          · exact ⟨mi + 1, by simpa using hm1, by simpa using hm2, by omega⟩
      rw [hsplit]
      have hgoal : ((if c then buf.set (i / 8) ((buf.getD (i / 8) 0) ||| (1 <<< (i % 8)))
            else buf).getD j 0).testBit k = true
          ↔ ((buf.getD j 0).testBit k = true ∨ (c = true ∧ i = 8 * j + k)) := by
        cases c with
        | false => simp
        | true =>
            simp only [if_true, true_and]
            by_cases hij : i / 8 = j
            · have hjlt : i / 8 < buf.length := hij ▸ hj
              rw [← hij]
              rw [getD_set_self buf (i / 8) _ hjlt]
              rw [Nat.testBit_or]
              rw [show (1 <<< (i % 8)) = 2 ^ (i % 8) from by rw [Nat.shiftLeft_eq, one_mul]]
              rw [Nat.testBit_two_pow]
              constructor
              · intro h
                rcases Bool.or_eq_true_iff.mp h with h | h
                · exact Or.inl h
                · refine Or.inr ?_
                  have hik : i % 8 = k := by simpa using h
                  omega
              · intro h
                rw [Bool.or_eq_true_iff]
                rcases h with h | h
                · exact Or.inl h
                · refine Or.inr ?_
                  have hik : i % 8 = k := by omega
                  simp [hik]
            · rw [getD_set_ne buf (i / 8) j _ hij]
              constructor
              · exact Or.inl
              · intro h
                rcases h with h | hpair
                · exact h
                · exfalso
                  obtain ⟨_, hi2⟩ := hpair
                  apply hij
                  omega
      rw [hgoal]
      tauto

theorem packBits_spec (bits : List Bool) (bc : Nat) :
    (packBits bits bc).length = bc
    ∧ (∀ iBit, iBit < 8 * bc →
        ((packBits bits bc).getD (iBit / 8) 0).testBit (iBit % 8)
          = bits.getD iBit false) := by
  constructor
  · rw [packBits, packLoop_length, List.length_replicate]
  · intro iBit hi
    have hj : iBit / 8 < bc := by omega
    have hk : iBit % 8 < 8 := Nat.mod_lt _ (by norm_num)
    have hrep : (List.replicate bc (0 : Nat)).getD (iBit / 8) 0 = 0 := by
      rw [List.getD_eq_getElem?_getD, List.getElem?_replicate_of_lt hj]
      rfl
    have hiff := packLoop_testBit bits 0 (List.replicate bc 0) (iBit / 8) (iBit % 8) hk
      (by rw [List.length_replicate]; exact hj)
    rw [packBits]
    have heq : 8 * (iBit / 8) + iBit % 8 = iBit := by omega
    cases hb : bits.getD iBit false with
    | false =>
        apply (Bool.eq_false_iff).mpr
        intro hcontra
        rcases (hiff.mp hcontra) with h | ⟨mi, hm1, hm2, hm3⟩
        · rw [hrep] at h
          simp at h
        · have : mi = iBit := by omega
          rw [this] at hm2
          rw [hm2] at hb
          cases hb
    | true =>
        apply hiff.mpr
        refine Or.inr ⟨iBit, ?_, hb, by omega⟩
        by_contra hge
        push_neg at hge
        rw [List.getD_eq_default _ _ hge] at hb
        cases hb

/-- C5: behaviour of handleFC1 on a model implementing `readCoils`:
a PDU that is not exactly 4 bytes is silently dropped (no response, no
writes); a count outside 1..2000 answers ILLEGAL_DATA_VALUE; an address
span violating the configured coils range answers ILLEGAL_DATA_ADDRESS;
otherwise the response payload is the byte count `ceil(count/8)` followed
by exactly that many bytes with the returned coil bits packed LSB-first
(bit i in byte i/8 at bit position i%8). -/
theorem c5_fc1_semantics (m : SlaveModel) (frame : Frame)
    (rc : Nat → Nat → Except (List Char) (List Bool))
    (address count byteCount : Nat)
    (hrc : m.readCoils = some rc)
    (haddr : address = readUInt16BE frame.data 0)
    (hcount : count = readUInt16BE frame.data 2)
    (hbc : byteCount = (count + 7) / 8) :
    (frame.data.length ≠ 4 → handleFC1 m frame = {})
    ∧ (frame.data.length = 4 → (count < 1 ∨ 2000 < count) →
        handleFC1 m frame = { response := some (exceptionAdu frame 3) })
    ∧ (frame.data.length = 4 → 1 ≤ count → count ≤ 2000 →
        checkRange [(address : Int), (address : Int) + (count : Int)]
          (rangeOf m (·.coils)) = false →
        handleFC1 m frame = { response := some (exceptionAdu frame 2) })
    ∧ (∀ coils, frame.data.length = 4 → 1 ≤ count → count ≤ 2000 →
        checkRange [(address : Int), (address : Int) + (count : Int)]
          (rangeOf m (·.coils)) = true →
        rc address count = .ok coils →
        handleFC1 m frame
          = { response := some (normalResponse frame (byteCount :: packBits coils byteCount)) }
        ∧ (packBits coils byteCount).length = byteCount
        ∧ (∀ iBit, iBit < 8 * byteCount →
            ((packBits coils byteCount).getD (iBit / 8) 0).testBit (iBit % 8)
              = coils.getD iBit false)) := by
  subst haddr hcount hbc
  have hkey : frame.data.length = 4 → handleFC1 m frame =
      (if 1 ≤ readUInt16BE frame.data 2 ∧ readUInt16BE frame.data 2 ≤ 0x07d0 then
        if checkRange [(readUInt16BE frame.data 0 : Int),
            (readUInt16BE frame.data 0 : Int) + (readUInt16BE frame.data 2 : Int)]
            (rangeOf m (·.coils)) then
          match rc (readUInt16BE frame.data 0) (readUInt16BE frame.data 2) with
          | .ok coils =>
            { response := some (normalResponse frame
                ((packBits coils ((readUInt16BE frame.data 2 + 7) / 8)).length
                  :: packBits coils ((readUInt16BE frame.data 2 + 7) / 8))) }
          | .error e => { response := some (responseError frame e) }
        else { response := some (responseError frame (getErrorByCode 2)) }
      else { response := some (responseError frame (getErrorByCode 3)) }) := by
    intro hlen
    rw [handleFC1, if_pos (by simp [hlen]), hrc]
  refine ⟨?_, ?_, ?_, ?_⟩
  · intro hne
    rw [handleFC1, if_neg (by simp [hne])]
  · intro hlen hbad
    rw [hkey hlen, if_neg (by omega), responseError_illegalDataValue]
  · intro hlen hlo hhi hrange
    rw [hkey hlen, if_pos ⟨hlo, hhi⟩, if_neg (by simp [hrange]),
      responseError_illegalDataAddress]
  · intro coils hlen hlo hhi hrange hok
    rw [hkey hlen, if_pos ⟨hlo, hhi⟩, if_pos (by simp [hrange]), hok]
    refine ⟨?_, (packBits_spec coils _).1, (packBits_spec coils _).2⟩
    simp only [(packBits_spec coils ((readUInt16BE frame.data 2 + 7) / 8)).1]

/-- C5 witness: a model whose `readCoils` returns nine bits, asked for
count 9 at address 0 with no configured range: the payload is byte count 2
followed by bytes packing the bits LSB-first; plus the silent-drop,
ILLEGAL_DATA_VALUE, and ILLEGAL_DATA_ADDRESS cases on concrete inputs. -/
theorem c5_fc1_semantics_witness :
    (handleFC1
        { readCoils := some (fun _ _ => .ok [true, false, true, true, false, false, true, true, true]) }
        ⟨⟨none, 17, 1, [0, 0, 0]⟩, []⟩ = {})
    ∧ (handleFC1
        { readCoils := some (fun _ _ => .ok [true, false, true, true, false, false, true, true, true]) }
        ⟨⟨none, 17, 1, [0, 0, 7, 209]⟩, []⟩
        = { response := some (exceptionAdu ⟨⟨none, 17, 1, [0, 0, 7, 209]⟩, []⟩ 3) })
    ∧ (handleFC1
        { readCoils := some (fun _ _ => .ok [true, false, true, true, false, false, true, true, true])
          getAddressRange := some { coils := some (.one 0 4) } }
        ⟨⟨none, 17, 1, [0, 0, 0, 9]⟩, []⟩
        = { response := some (exceptionAdu ⟨⟨none, 17, 1, [0, 0, 0, 9]⟩, []⟩ 2) })
    ∧ (handleFC1
        { readCoils := some (fun _ _ => .ok [true, false, true, true, false, false, true, true, true]) }
        ⟨⟨none, 17, 1, [0, 0, 0, 9]⟩, []⟩
        = { response := some (normalResponse ⟨⟨none, 17, 1, [0, 0, 0, 9]⟩, []⟩
            (2 :: packBits [true, false, true, true, false, false, true, true, true] 2)) }) := by
  refine ⟨?_, ?_, ?_, ?_⟩
  · exact (c5_fc1_semantics _ _ _ 0 0 0 rfl (by decide) (by decide) (by decide)).1 (by decide)
  · exact (c5_fc1_semantics _ _ _ 0 2001 251 rfl (by decide) (by decide) (by decide)).2.1
      (by decide) (by decide)
  · exact (c5_fc1_semantics _ _ _ 0 9 2 rfl (by decide) (by decide) (by decide)).2.2.1
      (by decide) (by decide) (by decide) (by decide)
  · exact ((c5_fc1_semantics _ _ _ 0 9 2 rfl (by decide) (by decide) (by decide)).2.2.2
      [true, false, true, true, false, false, true, true, true]
      (by decide) (by decide) (by decide) (by decide) rfl).1

/-- C6: what the FC22 fallback actually writes.  With `maskWriteRegister`
absent and `readHoldingRegisters` + `writeSingleRegister` present, the
value passed to `writeSingleRegister` is
`(v AND andMask) OR (orMask AND (NOT andMask AND 0xff))` — the complement
truncated to EIGHT bits (part_000 line 488), not the 16-bit complement the
claim (and the MODBUS specification) prescribe.  The final conjuncts
evaluate the failing input `v = 0, andMask = 0, orMask = 0x0100`: the code
writes 0 where the claim requires 0x0100. -/
theorem c6_fc22_fallback_mask_truncated :
    (∀ (m : SlaveModel) (frame : Frame)
      (rhr : Nat → Nat → Except (List Char) (List Nat))
      (wsr : Nat → Nat → Except (List Char) Unit) (v : Nat),
      m.maskWriteRegister = none → m.readHoldingRegisters = some rhr →
      m.writeSingleRegister = some wsr → frame.data.length = 6 →
      checkRange [(readUInt16BE frame.data 0 : Int)]
        (rangeOf m (·.holdingRegisters)) = true →
      rhr (readUInt16BE frame.data 0) 1 = .ok [v] →
      (handleFC22 m frame).regWrites
        = [(readUInt16BE frame.data 0,
            (v &&& readUInt16BE frame.data 2)
              ||| (readUInt16BE frame.data 4 &&& notLow8 (readUInt16BE frame.data 2)))])
    ∧ (handleFC22
        { readHoldingRegisters := some (fun _ _ => .ok [0])
          writeSingleRegister := some (fun _ _ => .ok ()) }
        ⟨⟨none, 1, 0x16, [0, 0, 0, 0, 1, 0]⟩, []⟩).regWrites = [(0, 0)]
    ∧ ((0 &&& 0) ||| (256 &&& (65535 - 0 % 65536))) = 256
    ∧ (0 : Nat) ≠ 256 := by
  refine ⟨?_, by decide, by decide, by decide⟩
  intro m frame rhr wsr v hmask hrh hwsr hlen hrange hok
  have hkey : handleFC22 m frame =
      (match wsr (readUInt16BE frame.data 0)
          ((v &&& readUInt16BE frame.data 2)
            ||| (readUInt16BE frame.data 4 &&& notLow8 (readUInt16BE frame.data 2))) with
       | .ok _ =>
         { response := some (normalResponse frame frame.data)
           regWrites := [(readUInt16BE frame.data 0,
             (v &&& readUInt16BE frame.data 2)
               ||| (readUInt16BE frame.data 4 &&& notLow8 (readUInt16BE frame.data 2)))] }
       | .error e =>
         { response := some (responseError frame e)
           regWrites := [(readUInt16BE frame.data 0,
             (v &&& readUInt16BE frame.data 2)
               ||| (readUInt16BE frame.data 4 &&& notLow8 (readUInt16BE frame.data 2)))] }) := by
    rw [handleFC22, if_pos (by simp [hlen]), if_pos (by simp [hmask, hrh, hwsr]),
      if_pos (by simp [hrange]), hmask, hrh, hwsr]
    simp only [hok]
    rfl
  rw [hkey]
  cases wsr (readUInt16BE frame.data 0)
      ((v &&& readUInt16BE frame.data 2)
        ||| (readUInt16BE frame.data 4 &&& notLow8 (readUInt16BE frame.data 2))) with
  | ok u => rfl
  | error e => rfl

/-- C6 witness: the general fallback-write characterization applied at the
failing input. -/
theorem c6_fc22_fallback_mask_truncated_witness :
    (handleFC22
        { readHoldingRegisters := some (fun _ _ => .ok [0])
          writeSingleRegister := some (fun _ _ => .ok ()) }
        ⟨⟨none, 1, 0x16, [0, 0, 0, 0, 1, 0]⟩, []⟩).regWrites
      = [(readUInt16BE [0, 0, 0, 0, 1, 0] 0,
          (0 &&& readUInt16BE [0, 0, 0, 0, 1, 0] 2)
            ||| (readUInt16BE [0, 0, 0, 0, 1, 0] 4
                  &&& notLow8 (readUInt16BE [0, 0, 0, 0, 1, 0] 2)))] :=
  c6_fc22_fallback_mask_truncated.1
    { readHoldingRegisters := some (fun _ _ => .ok [0])
      writeSingleRegister := some (fun _ _ => .ok ()) }
    ⟨⟨none, 1, 0x16, [0, 0, 0, 0, 1, 0]⟩, []⟩
    (fun _ _ => .ok [0]) (fun _ _ => .ok ()) 0
    rfl rfl rfl rfl (by decide) rfl

theorem strStartsWith_append (p s : List Char) : strStartsWith p (p ++ s) = true := by
  rw [strStartsWith, List.take_left]
  simp

/-- C7 counterexample: the Error message built from the prefix and the
digit 7 — not the encoding of any of the nine enumerated codes — is mapped
to code 7, which is outside the enumeration, where the claim requires
SERVER_DEVICE_FAILURE (4). -/
theorem c7_counterexample_code_seven :
    getCodeByError (PREFIX_CHARS ++ ['7']) = some 7
    ∧ getCodeByError (PREFIX_CHARS ++ ['7']) ≠ some 4
    ∧ (7 : Nat) ∉ errorCodes
    ∧ (∀ c ∈ errorCodes, getErrorByCode c ≠ PREFIX_CHARS ++ ['7']) := by
  refine ⟨by decide, by decide, by decide, by decide⟩

/-- C7 (amended): the nine enumerated codes round-trip through
`getErrorByCode` / `getCodeByError`; an error whose message does not start
with the prefix maps to SERVER_DEVICE_FAILURE (4); but an error whose
message starts with the prefix maps to the JS-numeric parse of the suffix,
whatever number that is — not necessarily one of the nine. -/
theorem c7_error_code_mapping :
    (∀ c ∈ errorCodes, getCodeByError (getErrorByCode c) = some c)
    ∧ (∀ msg : List Char, strStartsWith PREFIX_CHARS msg = false →
        getCodeByError msg = some 4)
    ∧ (∀ s : List Char, getCodeByError (PREFIX_CHARS ++ s) = jsStringToNumber s) := by
  refine ⟨by decide, ?_, ?_⟩
  · intro msg h
    rw [getCodeByError, if_neg (by simp [h])]
  · intro s
    rw [getCodeByError, if_pos (by simp [strStartsWith_append]), List.drop_left]

/-- C7 witness: the mapping evaluated at the code 2 round-trip, at a
message without the prefix, and at an arbitrary digit suffix. -/
theorem c7_error_code_mapping_witness :
    getCodeByError (getErrorByCode 2) = some 2
    ∧ getCodeByError (['x'] : List Char) = some 4
    ∧ getCodeByError (PREFIX_CHARS ++ ['9']) = jsStringToNumber ['9'] :=
  ⟨c7_error_code_mapping.1 2 (by decide),
   c7_error_code_mapping.2.1 ['x'] (by decide),
   c7_error_code_mapping.2.2 ['9']⟩

/-- C10: edge cases of checkRange.  A single interval with lo ≥ hi is no
restriction (always true); an empty interval list is always true; a
non-empty list whose intervals all have lo ≥ hi rejects every query; and
with no range configured every query is accepted. -/
theorem c10_checkRange_edge_cases :
    (∀ (v : List Int) (lo hi : Int), hi ≤ lo → checkRange v (some (.one lo hi)) = true)
    ∧ (∀ v : List Int, checkRange v (some (.many [])) = true)
    ∧ (∀ (v : List Int) (rs : List (Int × Int)), rs ≠ [] → (∀ r ∈ rs, r.2 ≤ r.1) →
        checkRange v (some (.many rs)) = false)
    ∧ (∀ v : List Int, checkRange v none = true) := by
  refine ⟨?_, ?_, ?_, ?_⟩
  · intro v lo hi h
    rw [checkRange, if_neg (by omega)]
  · intro v
    rfl
  · intro v rs hne hbad
    rw [checkRange, if_pos (by
      cases rs with
      | nil => exact absurd rfl hne
      | cons r rest => simp)]
    rw [List.any_eq_false]
    intro r hr
    have := hbad r hr
    simp only [Bool.and_eq_true, decide_eq_true_eq, not_and]
    intro hlt
    omega
  · intro v
    rfl

/-- C10 witness: the four edge cases on concrete queries. -/
theorem c10_checkRange_edge_cases_witness :
    checkRange [5] (some (.one 9 3)) = true
    ∧ checkRange [5] (some (.many [])) = true
    ∧ checkRange [5] (some (.many [(9, 3), (4, 4)])) = false
    ∧ checkRange [5] none = true :=
  ⟨c10_checkRange_edge_cases.1 [5] 9 3 (by norm_num),
   c10_checkRange_edge_cases.2.1 [5],
   c10_checkRange_edge_cases.2.2.1 [5] [(9, 3), (4, 4)] (by decide) (by decide),
   c10_checkRange_edge_cases.2.2.2 [5]⟩

end NjsModbus
